import Mathlib

/-!
# SparzaFI chat widget (`static/js/main.js`)

A shallow embedding of the browser-side chat widget and the properties its
specification states.  JavaScript values, the DOM elements the widget is
bound to, the browser's interval timers and the network are explicit data;
every synchronous block of an `async` function (the code between two
suspension points) is one Lean function on that data.
-/

namespace SparzaFI

/-! ## JavaScript values -/

/-- The JavaScript values that flow through the widget as identifiers and
e-mail addresses: `null`, `undefined`, integer numbers and strings. -/
inductive JsVal where
  | null
  | undefined
  | num (n : Int)
  | str (s : String)
  deriving DecidableEq, Repr

namespace JsVal

/-- JavaScript `ToBoolean`: `null`, `undefined`, `0` and `""` are falsy. -/
def truthy : JsVal → Bool
  | null => false
  | undefined => false
  | num n => n != 0
  | str s => s != ""

/-- JavaScript `===` on these values. -/
def strictEq (a b : JsVal) : Bool := decide (a = b)

end JsVal

/-- ECMAScript `WhiteSpace` and `LineTerminator` code points, the ones
`String.prototype.trim` removes. -/
def isJsWhiteSpace (c : Char) : Bool :=
  let n := c.toNat
  n == 0x09 || n == 0x0A || n == 0x0B || n == 0x0C || n == 0x0D || n == 0x20 ||
  n == 0xA0 || n == 0x1680 || (0x2000 ≤ n && n ≤ 0x200A) || n == 0x2028 ||
  n == 0x2029 || n == 0x202F || n == 0x205F || n == 0x3000 || n == 0xFEFF

/-- JavaScript `String.prototype.trim`: drops leading and trailing white space. -/
def jsTrim (s : String) : String :=
  ⟨((s.data.dropWhile isJsWhiteSpace).reverse.dropWhile isJsWhiteSpace).reverse⟩

/-- String conversion of an integer Number, as done by a template literal or
by assigning a number to `textContent`. -/
def numberToString (n : Int) : String := toString n

/-! ## `formatTimestamp` (lines 229-243, copied at 384-398) -/

/-- `Math.floor(a / b)` for an integer `a` and a positive integer constant `b`. -/
def mathFloorDiv (a : Int) (b : Int) : Int := Int.fdiv a b

/-- `formatTimestamp(timestamp)` of the `DOMContentLoaded` handler.  `now` is the
time value of `new Date()`, `timestamp` the time value of `new Date(timestamp)`
(`none` when the date is invalid, so that every difference is `NaN` and every
comparison false), `toLocaleDateString` the host's `Date.prototype.toLocaleDateString`. -/
def formatTimestamp (now : Int) (toLocaleDateString : Option Int → String)
    (timestamp : Option Int) : String :=
  match timestamp with
  | none => toLocaleDateString none
  | some date =>
    let diffMs := now - date
    let diffMins := mathFloorDiv diffMs 60000
    let diffHours := mathFloorDiv diffMs 3600000
    let diffDays := mathFloorDiv diffMs 86400000
    if diffMins < 1 then "Just now"
    else if diffMins < 60 then numberToString diffMins ++ "m ago"
    else if diffHours < 24 then numberToString diffHours ++ "h ago"
    else if diffDays < 7 then numberToString diffDays ++ "d ago"
    else toLocaleDateString (some date)

/-- The copy of `formatTimestamp` declared inside the `openConversation`
event listener (lines 384-398). -/
def listener_formatTimestamp (now : Int) (toLocaleDateString : Option Int → String)
    (timestamp : Option Int) : String :=
  match timestamp with
  | none => toLocaleDateString none
  | some date =>
    let diffMs := now - date
    let diffMins := mathFloorDiv diffMs 60000
    let diffHours := mathFloorDiv diffMs 3600000
    let diffDays := mathFloorDiv diffMs 86400000
    if diffMins < 1 then "Just now"
    else if diffMins < 60 then numberToString diffMins ++ "m ago"
    else if diffHours < 24 then numberToString diffHours ++ "h ago"
    else if diffDays < 7 then numberToString diffDays ++ "d ago"
    else toLocaleDateString (some date)

/-! ## `escapeHtml` (lines 245-249, copied at 400-404) -/

/-- The no-break space U+00A0. -/
def nbsp : Char := Char.ofNat 0xA0

/-- A detached `div` element: its children are text nodes. -/
structure DivElement where
  textNodes : List String
  deriving DecidableEq, Repr

/-- The element `document.createElement('div')` returns. -/
def createDiv : DivElement := ⟨[]⟩

/-- The `textContent` setter: all children are replaced by one text node
holding the string, or by nothing when the string is empty. -/
def DivElement.setTextContent (_ : DivElement) (text : String) : DivElement :=
  if text = "" then ⟨[]⟩ else ⟨[text]⟩

/-- The HTML standard's "escaping a string" outside attribute mode, for one
character of a text node. -/
def escapeChar (c : Char) : List Char :=
  if c = '&' then ['&', 'a', 'm', 'p', ';']
  else if c = nbsp then ['&', 'n', 'b', 's', 'p', ';']
  else if c = '<' then ['&', 'l', 't', ';']
  else if c = '>' then ['&', 'g', 't', ';']
  else [c]

/-- Serialisation of the data of one text node. -/
def escapeChars : List Char → List Char
  | [] => []
  | c :: cs => escapeChar c ++ escapeChars cs

/-- The `innerHTML` getter of a `div` whose children are text nodes. -/
def DivElement.innerHTML (d : DivElement) : String :=
  ⟨(d.textNodes.map (fun t => escapeChars t.data)).flatten⟩

/-- `escapeHtml(text)` of the `DOMContentLoaded` handler. -/
def escapeHtml (text : String) : String :=
  let div := createDiv
  let div := div.setTextContent text
  div.innerHTML

/-- The copy of `escapeHtml` declared inside the `openConversation` event
listener (lines 400-404). -/
def listener_escapeHtml (text : String) : String :=
  let div := createDiv
  let div := div.setTextContent text
  div.innerHTML

/-- Decoding of the four character references the serialisation produces, the
way an HTML parser reads them back in text content; every other character is
kept. -/
def decodeEntities : List Char → List Char
  | [] => []
  | '&' :: 'a' :: 'm' :: 'p' :: ';' :: r => '&' :: decodeEntities r
  | '&' :: 'n' :: 'b' :: 's' :: 'p' :: ';' :: r => nbsp :: decodeEntities r
  | '&' :: 'l' :: 't' :: ';' :: r => '<' :: decodeEntities r
  | '&' :: 'g' :: 't' :: ';' :: r => '>' :: decodeEntities r
  | c :: rest => c :: decodeEntities rest

/-- The string obtained by decoding the character references of serialised
text content. -/
def decodeHtml (s : String) : String := ⟨decodeEntities s.data⟩

/-- The character references the serialisation can produce. -/
def entities : List (List Char) :=
  [['&', 'a', 'm', 'p', ';'], ['&', 'n', 'b', 's', 'p', ';'],
   ['&', 'l', 't', ';'], ['&', 'g', 't', ';']]

/-! ## Server data, network and timers -/

/-- A conversation as the server supplies it. -/
structure Conversation where
  id : JsVal
  other_user_id : JsVal
  other_user_email : JsVal
  created_at : JsVal
  last_message_at : JsVal
  deriving DecidableEq, Repr

/-- A message as the server supplies it. -/
structure Message where
  sender_email : JsVal
  content : JsVal
  timestamp : JsVal
  deriving DecidableEq, Repr

/-- The body of the reply to `POST /chat/messages`: an object, whose
`conversation_id` is read when no conversation is set. -/
structure SendResponse where
  conversation_id : JsVal
  deriving DecidableEq, Repr

/-- A request the widget hands to `fetch`. -/
inductive Request where
  | getConversations
  | getMessages (conversationId : JsVal)
  | postMessage (recipient_id : JsVal) (content : String)
  | getUnreadCount
  deriving DecidableEq, Repr

/-- How a `fetch` followed by `response.json()` ends: the fetch rejects, the
response has `ok` false, parsing the body rejects, or the body is delivered. -/
inductive Reply (α : Type) where
  | fetchThrows
  | notOk
  | jsonThrows
  | ok (data : α)
  deriving DecidableEq, Repr

/-- The two functions the widget passes to `setInterval`. -/
inductive Callback where
  | loadMessages
  | updateUnreadCount
  deriving DecidableEq, Repr

/-- An active interval timer of the browser. -/
structure Timer where
  handle : Nat
  callback : Callback
  delay : Nat
  deriving DecidableEq, Repr

/-- The `chatState` object (lines 7-13). A timer field holds `null` or the
handle `setInterval` returned. -/
structure ChatState where
  currentConversationId : JsVal
  currentRecipientId : JsVal
  currentRecipientEmail : JsVal
  pollingInterval : Option Nat
  unreadInterval : Option Nat
  deriving DecidableEq, Repr

/-- The `detail` of an `openConversation` custom event. -/
structure EventDetail where
  conversationId : JsVal
  recipientId : JsVal
  recipientEmail : JsVal
  deriving DecidableEq, Repr

/-- An `async` call suspended at an `await`. A call awaiting `loadMessages()`
records whether that `loadMessages` passed its guard and issued its fetch. -/
inductive Suspended where
  | loadConversations
  | loadMessages
  | openConversation (fetching : Bool)
  | sendMessage_post
  | sendMessage_reload (fetching : Bool)
  | updateUnreadCount
  | startChatWith (recipientId recipientEmail : JsVal)
  | listener_load
  deriving DecidableEq, Repr

/-- What `chat-conversations-list` shows. -/
inductive ListView where
  | untouched
  | loading
  | empty
  | error
  | items (conversations : List Conversation)
  deriving DecidableEq, Repr

/-- What `chat-messages-container` shows. -/
inductive MessagesView where
  | untouched
  | startConversation (recipientEmail : JsVal)
  | messages (msgs : List Message)
  deriving DecidableEq, Repr

/-- The page as far as the widget reads or writes it: `chatState`, the DOM
elements it is bound to, the browser's active timers and the handle the next
`setInterval` returns, the requests issued so far, the suspended `async` calls,
and the alerts, console errors, focus calls and custom events produced so far. -/
structure Page where
  chatState : ChatState
  chatModalDisplay : String
  conversationsListDisplay : String
  conversationsList : ListView
  messagesViewDisplay : String
  messagesContainer : MessagesView
  inputContainerDisplay : String
  backBtnDisplay : String
  chatTitle : JsVal
  messageInputValue : String
  sendBtnDisabled : Bool
  badgeText : String
  badgeDisplay : String
  focusCount : Nat
  timers : List Timer
  nextHandle : Nat
  requests : List Request
  pending : List Suspended
  alerts : List String
  consoleErrors : List String
  events : List EventDetail
  deriving DecidableEq, Repr

/-- Browser `setInterval`: registers a timer under a fresh positive handle and
returns the handle. -/
def setInterval (cb : Callback) (delay : Nat) (p : Page) : Nat × Page :=
  (p.nextHandle,
   { p with timers := p.timers ++ [⟨p.nextHandle, cb, delay⟩], nextHandle := p.nextHandle + 1 })

/-- Browser `clearInterval`: removes the timer with this handle. -/
def clearInterval (h : Nat) (p : Page) : Page :=
  { p with timers := p.timers.filter (fun t => t.handle != h) }

/-- Browser `fetch`: records the request. -/
def fetch (r : Request) (p : Page) : Page :=
  { p with requests := p.requests ++ [r] }

/-- Suspends the running `async` call at an `await`. -/
def suspend (t : Suspended) (p : Page) : Page :=
  { p with pending := p.pending ++ [t] }

/-- The call `console.error(msg, ...)`. -/
def consoleError (msg : String) (p : Page) : Page :=
  { p with consoleErrors := p.consoleErrors ++ [msg] }

/-- The call `alert(msg)`. -/
def alert (msg : String) (p : Page) : Page :=
  { p with alerts := p.alerts ++ [msg] }

/-! ## The widget's functions -/

/-- `stopPolling()` (lines 197-202). -/
def stopPolling (p : Page) : Page :=
  match p.chatState.pollingInterval with
  | some h =>
    if h != 0 then
      let p := clearInterval h p
      { p with chatState := { p.chatState with pollingInterval := none } }
    else p
  | none => p

/-- `updateUnreadCount()` up to its `await fetch` (line 206). -/
def updateUnreadCount (p : Page) : Page :=
  suspend .updateUnreadCount (fetch .getUnreadCount p)

/-- `updateUnreadCount()` from the reply on (lines 207-220). -/
def updateUnreadCount_resume (r : Reply Int) (p : Page) : Page :=
  match r with
  | .fetchThrows => consoleError "Error updating unread count:" p
  | .notOk => p
  | .jsonThrows => consoleError "Error updating unread count:" p
  | .ok unread_count =>
    if unread_count > 0 then
      { p with
        badgeText := if unread_count > 99 then "99+" else numberToString unread_count,
        badgeDisplay := "flex" }
    else
      { p with badgeDisplay := "none" }

/-- `startUnreadPolling()` (lines 223-226). -/
def startUnreadPolling (p : Page) : Page :=
  let p := updateUnreadCount p
  let (h, p) := setInterval .updateUnreadCount 10000 p
  { p with chatState := { p.chatState with unreadInterval := some h } }

/-- `backToConversations()` (lines 60-70). -/
def backToConversations (p : Page) : Page :=
  let p := { p with
    conversationsListDisplay := "block",
    messagesViewDisplay := "none",
    inputContainerDisplay := "none",
    backBtnDisplay := "none",
    chatTitle := .str "Messages",
    chatState := { p.chatState with
      currentConversationId := .null,
      currentRecipientId := .null,
      currentRecipientEmail := .null } }
  stopPolling p

/-- `closeChat()` (lines 54-58). -/
def closeChat (p : Page) : Page :=
  let p := { p with chatModalDisplay := "none" }
  let p := stopPolling p
  backToConversations p

/-- `loadConversations()` up to its `await fetch` (lines 73-76). -/
def loadConversations (p : Page) : Page :=
  let p := { p with conversationsList := .loading }
  suspend .loadConversations (fetch .getConversations p)

/-- `loadConversations()` from the reply on (lines 77-106). -/
def loadConversations_resume (r : Reply (List Conversation)) (p : Page) : Page :=
  match r with
  | .ok conversations =>
    if conversations.length = 0 then { p with conversationsList := .empty }
    else { p with conversationsList := .items conversations }
  | _ =>
    let p := consoleError "Error loading conversations:" p
    { p with conversationsList := .error }

/-- `openChat()` (lines 49-52). -/
def openChat (p : Page) : Page :=
  let p := { p with chatModalDisplay := "flex" }
  loadConversations p

/-- `loadMessages()` up to its `await fetch` (lines 128-131); the flag tells
whether the guard was passed and the fetch issued. -/
def loadMessages (p : Page) : Page × Bool :=
  if !p.chatState.currentConversationId.truthy then (p, false)
  else (fetch (.getMessages p.chatState.currentConversationId) p, true)

/-- `loadMessages()` from the reply on (lines 132-158). -/
def loadMessages_resume (r : Reply (List Message)) (p : Page) : Page :=
  match r with
  | .ok messages =>
    let p := { p with messagesContainer := .messages messages }
    updateUnreadCount p
  | _ => consoleError "Error loading messages:" p

/-- The rest of an awaited `loadMessages()`: nothing when it returned at its guard. -/
def loadMessages_finish (fetching : Bool) (r : Reply (List Message)) (p : Page) : Page :=
  if fetching then loadMessages_resume r p else p

/-- `openConversation(...)` up to `await loadMessages()` (lines 110-120). -/
def openConversation (conversationId recipientId recipientEmail : JsVal) (p : Page) : Page :=
  let p := { p with
    chatState := { p.chatState with
      currentConversationId := conversationId,
      currentRecipientId := recipientId,
      currentRecipientEmail := recipientEmail },
    conversationsListDisplay := "none",
    messagesViewDisplay := "flex",
    inputContainerDisplay := "flex",
    backBtnDisplay := "block",
    chatTitle := recipientEmail }
  let (p, fetching) := loadMessages p
  suspend (.openConversation fetching) p

/-- `openConversation(...)` after `await loadMessages()` (lines 120-124). -/
def openConversation_resume (fetching : Bool) (r : Reply (List Message)) (p : Page) : Page :=
  let p := loadMessages_finish fetching r p
  let p := stopPolling p
  let (h, p) := setInterval .loadMessages 3000 p
  { p with chatState := { p.chatState with pollingInterval := some h } }

/-- The `finally` block of `sendMessage()` (lines 191-194). -/
def sendMessage_finally (p : Page) : Page :=
  { p with sendBtnDisabled := false, focusCount := p.focusCount + 1 }

/-- The `catch` block of `sendMessage()` (lines 188-190). -/
def sendMessage_catch (p : Page) : Page :=
  alert "Failed to send message. Please try again." (consoleError "Error sending message:" p)

/-- `sendMessage()` up to its `await fetch` (lines 162-175). -/
def sendMessage (p : Page) : Page :=
  let content := jsTrim p.messageInputValue
  if content = "" || !p.chatState.currentRecipientId.truthy then p
  else
    let p := { p with sendBtnDisabled := true }
    suspend .sendMessage_post (fetch (.postMessage p.chatState.currentRecipientId content) p)

/-- `sendMessage()` from the reply to the POST up to `await loadMessages()`, or
to its end when the POST failed (lines 177-194). -/
def sendMessage_resume (r : Reply SendResponse) (p : Page) : Page :=
  match r with
  | .ok data =>
    let p :=
      if !p.chatState.currentConversationId.truthy then
        { p with chatState := { p.chatState with currentConversationId := data.conversation_id } }
      else p
    let p := { p with messageInputValue := "" }
    let (p, fetching) := loadMessages p
    suspend (.sendMessage_reload fetching) p
  | _ => sendMessage_finally (sendMessage_catch p)

/-- `sendMessage()` after `await loadMessages()` (lines 187-194). -/
def sendMessage_reloaded (fetching : Bool) (r : Reply (List Message)) (p : Page) : Page :=
  sendMessage_finally (loadMessages_finish fetching r p)

/-- The `openConversation` event listener up to the `await fetch` of its inner
function (lines 333-356). -/
def listener_openConversation (e : EventDetail) (p : Page) : Page :=
  let p := { p with
    chatState := { p.chatState with
      currentConversationId := e.conversationId,
      currentRecipientId := e.recipientId,
      currentRecipientEmail := e.recipientEmail },
    conversationsListDisplay := "none",
    messagesViewDisplay := "flex",
    inputContainerDisplay := "flex",
    backBtnDisplay := "block",
    chatTitle := e.recipientEmail }
  suspend .listener_load (fetch (.getMessages e.conversationId) p)

/-- The inner function of the listener from the reply on (lines 357-380). -/
def listener_resume (r : Reply (List Message)) (p : Page) : Page :=
  match r with
  | .ok messages => { p with messagesContainer := .messages messages }
  | _ => consoleError "Error loading messages:" p

/-- `document.dispatchEvent` of an `openConversation` event: the listener runs
before the call returns. -/
def dispatchEvent (e : EventDetail) (p : Page) : Page :=
  listener_openConversation e { p with events := p.events ++ [e] }

/-- `window.startChatWith(...)` up to its `await fetch` (lines 270-288), on a
page that has the `chat-modal` and `open-chat-btn` elements. -/
def startChatWith (recipientId recipientEmail : JsVal) (p : Page) : Page :=
  if !recipientId.truthy || !recipientEmail.truthy then
    consoleError "Recipient ID and email are required" p
  else
    let p := { p with chatModalDisplay := "flex" }
    suspend (.startChatWith recipientId recipientEmail) (fetch .getConversations p)

/-- `window.startChatWith(...)` from the reply on (lines 289-329). -/
def startChatWith_resume (recipientId recipientEmail : JsVal)
    (r : Reply (List Conversation)) (p : Page) : Page :=
  match r with
  | .ok conversations =>
    match conversations.find? (fun c => c.other_user_id.strictEq recipientId) with
    | some existingConv =>
      dispatchEvent ⟨existingConv.id, recipientId, recipientEmail⟩ p
    | none =>
      { p with
        chatState := { p.chatState with
          currentConversationId := .null,
          currentRecipientId := recipientId,
          currentRecipientEmail := recipientEmail },
        conversationsListDisplay := "none",
        messagesViewDisplay := "flex",
        inputContainerDisplay := "flex",
        backBtnDisplay := "block",
        chatTitle := recipientEmail,
        messagesContainer := .startConversation recipientEmail,
        focusCount := p.focusCount + 1 }
  | .notOk => p
  | _ => alert "Failed to start chat. Please try again." (consoleError "Error starting chat:" p)

/-- The `DOMContentLoaded` handler on a page that has the chat elements
(lines 15-46): the listeners are bound and unread polling starts. -/
def domContentLoaded (p : Page) : Page :=
  startUnreadPolling p

/-! ## The event loop -/

/-- One turn of the event loop: a user action on the widget, a call or event
from another script, a timer firing, or a suspended `async` call resuming with
the outcome of what it awaited. -/
inductive Action where
  | clickOpenChat
  | clickCloseChat
  | clickBack
  | clickSend
  | keypress (key : String) (shiftKey : Bool)
  | input (value : String)
  | clickConversation (conv : Conversation)
  | callStartChatWith (recipientId recipientEmail : JsVal)
  | dispatchOpenConversation (e : EventDetail)
  | timerFires (handle : Nat)
  | loadConversationsReply (r : Reply (List Conversation))
  | loadMessagesReply (r : Reply (List Message))
  | openConversationResumes (fetching : Bool) (r : Reply (List Message))
  | sendReply (r : Reply SendResponse)
  | sendReloaded (fetching : Bool) (r : Reply (List Message))
  | unreadReply (r : Reply Int)
  | startChatWithReply (recipientId recipientEmail : JsVal) (r : Reply (List Conversation))
  | listenerReply (r : Reply (List Message))
  deriving DecidableEq, Repr

/-- Resumes the suspended call `t` with continuation `k`; nothing to resume when
no such call is suspended. -/
def resume (t : Suspended) (k : Page → Page) (p : Page) : Option Page :=
  if t ∈ p.pending then some (k { p with pending := p.pending.erase t }) else none

/-- The `onclick` of a rendered conversation item (line 100). -/
def clickConversation (conv : Conversation) (p : Page) : Option Page :=
  match p.conversationsList with
  | .items conversations =>
    if conv ∈ conversations then
      some (openConversation conv.id conv.other_user_id conv.other_user_email p)
    else none
  | _ => none

/-- The `keypress` listener of the message input (lines 38-43). -/
def onKeypress (key : String) (shiftKey : Bool) (p : Page) : Page :=
  if key = "Enter" && !shiftKey then sendMessage p else p

/-- An active timer fires and its callback runs up to its first `await`. -/
def timerFires (handle : Nat) (p : Page) : Option Page :=
  match p.timers.find? (fun t => t.handle == handle) with
  | some t =>
    match t.callback with
    | .loadMessages =>
      let (p, fetching) := loadMessages p
      some (if fetching then suspend .loadMessages p else p)
    | .updateUnreadCount => some (updateUnreadCount p)
  | none => none

/-- The page after one turn of the event loop, `none` when the turn cannot
happen on this page. -/
def step (a : Action) (p : Page) : Option Page :=
  match a with
  | .clickOpenChat => some (openChat p)
  | .clickCloseChat => some (closeChat p)
  | .clickBack => some (backToConversations p)
  | .clickSend => some (sendMessage p)
  | .keypress key shiftKey => some (onKeypress key shiftKey p)
  | .input value => some { p with messageInputValue := value }
  | .clickConversation conv => clickConversation conv p
  | .callStartChatWith recipientId recipientEmail =>
    some (startChatWith recipientId recipientEmail p)
  | .dispatchOpenConversation e => some (dispatchEvent e p)
  | .timerFires handle => timerFires handle p
  | .loadConversationsReply r => resume .loadConversations (loadConversations_resume r) p
  | .loadMessagesReply r => resume .loadMessages (loadMessages_resume r) p
  | .openConversationResumes fetching r =>
    resume (.openConversation fetching) (openConversation_resume fetching r) p
  | .sendReply r => resume .sendMessage_post (sendMessage_resume r) p
  | .sendReloaded fetching r =>
    resume (.sendMessage_reload fetching) (sendMessage_reloaded fetching r) p
  | .unreadReply r => resume .updateUnreadCount (updateUnreadCount_resume r) p
  | .startChatWithReply recipientId recipientEmail r =>
    resume (.startChatWith recipientId recipientEmail)
      (startChatWith_resume recipientId recipientEmail r) p
  | .listenerReply r => resume .listener_load (listener_resume r) p

/-- The page after a sequence of turns. -/
def run : List Action → Page → Option Page
  | [], p => some p
  | a :: as, p => (step a p).bind (run as)

/-- The value of `chatState` when the script is loaded (lines 7-13). -/
def initialChatState : ChatState :=
  { currentConversationId := .null,
    currentRecipientId := .null,
    currentRecipientEmail := .null,
    pollingInterval := none,
    unreadInterval := none }

/-- A page on which the script has just been loaded: `chatState` has its
initial value, the widget has no timer and no suspended call yet. -/
def Fresh (p : Page) : Prop :=
  p.chatState = initialChatState ∧ p.timers = [] ∧ p.pending = [] ∧ 0 < p.nextHandle

/-- A freshly loaded page whose chat elements carry no inline style or content. -/
def blankPage : Page :=
  { chatState := initialChatState,
    chatModalDisplay := "",
    conversationsListDisplay := "",
    conversationsList := .untouched,
    messagesViewDisplay := "",
    messagesContainer := .untouched,
    inputContainerDisplay := "",
    backBtnDisplay := "",
    chatTitle := .str "",
    messageInputValue := "",
    sendBtnDisabled := false,
    badgeText := "",
    badgeDisplay := "",
    focusCount := 0,
    timers := [],
    nextHandle := 1,
    requests := [],
    pending := [],
    alerts := [],
    consoleErrors := [],
    events := [] }

/-- The pages the widget can be in: `DOMContentLoaded` on a fresh page followed
by any number of turns of the event loop. -/
def Reachable (p : Page) : Prop :=
  ∃ p0 acts, Fresh p0 ∧ run acts (domContentLoaded p0) = some p

/-- The live timers that poll messages: the active timers whose callback is
`loadMessages`. -/
def messagePollTimers (p : Page) : List Timer :=
  p.timers.filter (fun t => t.callback == .loadMessages)

/-- The live timers that poll the unread count. -/
def unreadPollTimers (p : Page) : List Timer :=
  p.timers.filter (fun t => t.callback == .updateUnreadCount)

/-- The part of the page the timer code reads and writes. -/
structure TimerView where
  timers : List Timer
  nextHandle : Nat
  pollingInterval : Option Nat
  unreadInterval : Option Nat

/-- The timer view of a page. -/
def Page.timerView (p : Page) : TimerView :=
  ⟨p.timers, p.nextHandle, p.chatState.pollingInterval, p.chatState.unreadInterval⟩

/-- The timer invariant: the active timers are the unread poll stored in
`unreadInterval` and, when `pollingInterval` is set, the message poll stored
there, under distinct positive handles below the next fresh one. -/
def TimerView.Ok (v : TimerView) : Prop :=
  ∃ u, v.unreadInterval = some u ∧ 0 < u ∧ u < v.nextHandle ∧
    ((v.pollingInterval = none ∧ v.timers = [⟨u, .updateUnreadCount, 10000⟩]) ∨
     ∃ h, v.pollingInterval = some h ∧ 0 < h ∧ h < v.nextHandle ∧ h ≠ u ∧
       v.timers = [⟨u, .updateUnreadCount, 10000⟩, ⟨h, .loadMessages, 3000⟩])

/-- The timer invariant of a page. -/
def TimersOk (p : Page) : Prop := p.timerView.Ok

/-! ## Auxiliary definitions for the statements -/

/-- A page with a selected recipient and the given text in the message input. -/
def composePage (recipientId : JsVal) (text : String) : Page :=
  { blankPage with
    chatState := { initialChatState with currentRecipientId := recipientId },
    messageInputValue := text }

/-- Whether the POST of `sendMessage` succeeded: the response was `ok` and its
body was parsed. -/
def Reply.succeeded {α : Type} : Reply α → Bool
  | .ok _ => true
  | _ => false

/-- The ways two `openConversation` calls made in succession, for the rendered
conversations `a` and then `b`, can run to completion: each call resumes after
its `await loadMessages()` with its own outcome, the first call resuming
before the second call starts, or both calls suspended together and resuming
in either order. -/
def openTwice (a b : Conversation) (ra rb : Reply (List Message)) : List (List Action) :=
  let callA := Action.clickConversation a
  let callB := Action.clickConversation b
  let doneA := Action.openConversationResumes a.id.truthy ra
  let doneB := Action.openConversationResumes b.id.truthy rb
  [[callA, doneA, callB, doneB], [callA, callB, doneA, doneB], [callA, callB, doneB, doneA]]

/-- A conversation with user 2, as the server could list it. -/
def sampleConversation : Conversation :=
  { id := .num 7,
    other_user_id := .num 2,
    other_user_email := .str "seller@example.com",
    created_at := .str "2024-01-01T10:00:00",
    last_message_at := .null }

/-- A second conversation, with user 3. -/
def otherConversation : Conversation :=
  { id := .num 8,
    other_user_id := .num 3,
    other_user_email := .str "buyer@example.com",
    created_at := .str "2024-01-02T10:00:00",
    last_message_at := .null }

/-- The user opens the chat and the conversation list arrives. -/
def listTrace : List Action :=
  [.clickOpenChat, .loadConversationsReply (.ok [sampleConversation, otherConversation])]

/-- The page showing the loaded conversation list. -/
def listPage : Page := (run listTrace (domContentLoaded blankPage)).getD blankPage

/-- The user opens the chat, the list arrives, the user opens the conversation
and its messages arrive. -/
def openedTrace : List Action :=
  listTrace ++ [.clickConversation sampleConversation, .openConversationResumes true (.ok [])]

/-- The page showing the opened conversation. -/
def openedPage : Page := (run openedTrace (domContentLoaded blankPage)).getD blankPage

/-- The user opens the chat, the list arrives, the user opens the conversation
and closes the chat before the messages have arrived; then they arrive. -/
def closeWhileLoadingTrace : List Action :=
  listTrace ++ [.clickConversation sampleConversation, .clickCloseChat,
    .openConversationResumes true (.ok [])]

/-- The same with the back button in place of the close button. -/
def backWhileLoadingTrace : List Action :=
  listTrace ++ [.clickConversation sampleConversation, .clickBack,
    .openConversationResumes true (.ok [])]

/-- While the opened conversation is being polled, another script calls
`startChatWith` for a user with whom no conversation exists yet. -/
def startChatWhilePollingTrace : List Action :=
  openedTrace ++ [.callStartChatWith (.num 9) (.str "new@example.com"),
    .startChatWithReply (.num 9) (.str "new@example.com")
      (.ok [sampleConversation, otherConversation])]

/-- In the opened conversation the user types a message and presses Enter
twice before any reply has arrived; then the first POST is answered with a
response that is not ok. -/
def doubleSendTrace : List Action :=
  openedTrace ++ [.input "hi", .keypress "Enter" false, .keypress "Enter" false,
    .sendReply .notOk]

/-! ## The timer invariant -/

theorem timerView_fetch (r : Request) (p : Page) : (fetch r p).timerView = p.timerView := rfl

theorem timerView_suspend (t : Suspended) (p : Page) :
    (suspend t p).timerView = p.timerView := rfl

theorem timerView_consoleError (m : String) (p : Page) :
    (consoleError m p).timerView = p.timerView := rfl

theorem timerView_alert (m : String) (p : Page) : (alert m p).timerView = p.timerView := rfl

theorem timerView_updateUnreadCount (p : Page) :
    (updateUnreadCount p).timerView = p.timerView := rfl

theorem timerView_updateUnreadCount_resume (r : Reply Int) (p : Page) :
    (updateUnreadCount_resume r p).timerView = p.timerView := by
  unfold updateUnreadCount_resume
  split
  · rfl
  · rfl
  · rfl
  · split <;> rfl

theorem timerView_loadConversations (p : Page) :
    (loadConversations p).timerView = p.timerView := rfl

theorem timerView_loadConversations_resume (r : Reply (List Conversation)) (p : Page) :
    (loadConversations_resume r p).timerView = p.timerView := by
  unfold loadConversations_resume
  split
  · split <;> rfl
  · rfl

theorem timerView_openChat (p : Page) : (openChat p).timerView = p.timerView := rfl

theorem timerView_loadMessages (p : Page) : (loadMessages p).1.timerView = p.timerView := by
  unfold loadMessages
  split <;> rfl

theorem timerView_loadMessages_resume (r : Reply (List Message)) (p : Page) :
    (loadMessages_resume r p).timerView = p.timerView := by
  unfold loadMessages_resume
  split <;> rfl

theorem timerView_loadMessages_finish (f : Bool) (r : Reply (List Message)) (p : Page) :
    (loadMessages_finish f r p).timerView = p.timerView := by
  unfold loadMessages_finish
  split
  · exact timerView_loadMessages_resume r p
  · rfl

theorem timerView_openConversation (c r e : JsVal) (p : Page) :
    (openConversation c r e p).timerView = p.timerView := by
  unfold openConversation loadMessages
  dsimp only
  split <;> rfl

theorem timerView_sendMessage (p : Page) : (sendMessage p).timerView = p.timerView := by
  unfold sendMessage
  dsimp only
  split <;> rfl

theorem timerView_sendMessage_resume (r : Reply SendResponse) (p : Page) :
    (sendMessage_resume r p).timerView = p.timerView := by
  unfold sendMessage_resume
  split
  · dsimp only
    rw [timerView_suspend, timerView_loadMessages]
    split <;> rfl
  · rfl

theorem timerView_sendMessage_reloaded (f : Bool) (r : Reply (List Message)) (p : Page) :
    (sendMessage_reloaded f r p).timerView = p.timerView :=
  timerView_loadMessages_finish f r p

theorem timerView_dispatchEvent (e : EventDetail) (p : Page) :
    (dispatchEvent e p).timerView = p.timerView := rfl

theorem timerView_startChatWith (r e : JsVal) (p : Page) :
    (startChatWith r e p).timerView = p.timerView := by
  unfold startChatWith
  split <;> rfl

theorem timerView_startChatWith_resume (a b : JsVal) (r : Reply (List Conversation))
    (p : Page) : (startChatWith_resume a b r p).timerView = p.timerView := by
  unfold startChatWith_resume
  split
  · split <;> rfl
  · rfl
  · rfl

theorem timerView_listener_resume (r : Reply (List Message)) (p : Page) :
    (listener_resume r p).timerView = p.timerView := by
  unfold listener_resume
  split <;> rfl

theorem timerView_onKeypress (k : String) (b : Bool) (p : Page) :
    (onKeypress k b p).timerView = p.timerView := by
  unfold onKeypress
  split
  · exact timerView_sendMessage p
  · rfl

/-- What `stopPolling` does to a page that satisfies the timer invariant: only
the unread poll stays active and `pollingInterval` is `null`. -/
theorem stopPolling_timerView (p : Page) (hp : TimersOk p) :
    ∃ u, p.chatState.unreadInterval = some u ∧ 0 < u ∧ u < p.nextHandle ∧
      (stopPolling p).timerView =
        ⟨[⟨u, .updateUnreadCount, 10000⟩], p.nextHandle, none, some u⟩ := by
  obtain ⟨u, hu, hu0, hul, hcase⟩ := hp
  refine ⟨u, hu, hu0, hul, ?_⟩
  simp only [Page.timerView] at hu hul hcase ⊢
  rcases hcase with ⟨hn, ht⟩ | ⟨h, hs, h0, _, hne, ht⟩
  · simp [stopPolling, hn, ht, hu]
  · have h0' : h ≠ 0 := by omega
    have hne' : u ≠ h := fun e => hne e.symm
    simp [stopPolling, clearInterval, hs, ht, hu, h0', hne']

theorem stopPolling_timersOk (p : Page) (hp : TimersOk p) : TimersOk (stopPolling p) := by
  obtain ⟨u, _, hu0, hul, hv⟩ := stopPolling_timerView p hp
  unfold TimersOk
  rw [hv]
  exact ⟨u, rfl, hu0, hul, Or.inl ⟨rfl, rfl⟩⟩

theorem backToConversations_timersOk (p : Page) (hp : TimersOk p) :
    TimersOk (backToConversations p) := by
  unfold backToConversations
  exact stopPolling_timersOk _ hp

theorem closeChat_timersOk (p : Page) (hp : TimersOk p) : TimersOk (closeChat p) := by
  unfold closeChat
  exact backToConversations_timersOk _ (stopPolling_timersOk _ hp)

/-- What the continuation of `openConversation` does to a page that satisfies
the timer invariant: the unread poll and one new message poll are active. -/
theorem openConversation_resume_timerView (f : Bool) (r : Reply (List Message)) (p : Page)
    (hp : TimersOk p) :
    ∃ u, p.chatState.unreadInterval = some u ∧ 0 < u ∧ u < p.nextHandle ∧
      (openConversation_resume f r p).timerView =
        ⟨[⟨u, .updateUnreadCount, 10000⟩, ⟨p.nextHandle, .loadMessages, 3000⟩],
          p.nextHandle + 1, some p.nextHandle, some u⟩ := by
  have hq : TimersOk (loadMessages_finish f r p) := by
    unfold TimersOk
    rw [timerView_loadMessages_finish]
    exact hp
  have hv := timerView_loadMessages_finish f r p
  obtain ⟨u, hu, hu0, hul, hs⟩ := stopPolling_timerView _ hq
  simp only [Page.timerView, TimerView.mk.injEq] at hv hs
  refine ⟨u, ?_, hu0, ?_, ?_⟩
  · rw [← hv.2.2.2]; exact hu
  · rw [← hv.2.1]; exact hul
  · simp only [openConversation_resume, setInterval, Page.timerView, hs.1, hs.2.1, hs.2.2.2,
      hv.2.1, List.cons_append, List.nil_append]

theorem openConversation_resume_timersOk (f : Bool) (r : Reply (List Message)) (p : Page)
    (hp : TimersOk p) : TimersOk (openConversation_resume f r p) := by
  obtain ⟨u, _, hu0, hul, hv⟩ := openConversation_resume_timerView f r p hp
  unfold TimersOk
  rw [hv]
  exact ⟨u, rfl, hu0, by simp only; omega,
    Or.inr ⟨p.nextHandle, rfl, by omega, by simp only; omega, by omega, rfl⟩⟩

theorem resume_timersOk (t : Suspended) (k : Page → Page) (p q : Page)
    (hk : ∀ x, TimersOk x → TimersOk (k x)) (hp : TimersOk p)
    (h : resume t k p = some q) : TimersOk q := by
  unfold resume at h
  split at h
  · cases h
    exact hk _ hp
  · cases h

theorem timersOk_of_view {p q : Page} (h : q.timerView = p.timerView) (hp : TimersOk p) :
    TimersOk q := by
  unfold TimersOk
  rw [h]
  exact hp

/-- Every turn of the event loop preserves the timer invariant. -/
theorem step_timersOk (a : Action) (p q : Page) (hp : TimersOk p) (h : step a p = some q) :
    TimersOk q := by
  cases a <;> simp only [step, Option.some.injEq] at h
  case clickOpenChat => subst h; exact timersOk_of_view (timerView_openChat p) hp
  case clickCloseChat => subst h; exact closeChat_timersOk p hp
  case clickBack => subst h; exact backToConversations_timersOk p hp
  case clickSend => subst h; exact timersOk_of_view (timerView_sendMessage p) hp
  case keypress k b => subst h; exact timersOk_of_view (timerView_onKeypress k b p) hp
  case input v => subst h; exact hp
  case clickConversation c =>
    unfold clickConversation at h
    split at h
    · split at h
      · cases h
        exact timersOk_of_view (timerView_openConversation _ _ _ p) hp
      · cases h
    · cases h
  case callStartChatWith a b =>
    subst h; exact timersOk_of_view (timerView_startChatWith a b p) hp
  case dispatchOpenConversation e =>
    subst h; exact timersOk_of_view (timerView_dispatchEvent e p) hp
  case timerFires n =>
    unfold timerFires at h
    split at h
    · split at h
      · cases h
        have hv := timerView_loadMessages p
        split
        · exact timersOk_of_view ((timerView_suspend _ _).trans hv) hp
        · exact timersOk_of_view hv hp
      · cases h
        exact timersOk_of_view (timerView_updateUnreadCount p) hp
    · cases h
  case loadConversationsReply r =>
    exact resume_timersOk _ _ p q
      (fun x hx => timersOk_of_view (timerView_loadConversations_resume r x) hx) hp h
  case loadMessagesReply r =>
    exact resume_timersOk _ _ p q
      (fun x hx => timersOk_of_view (timerView_loadMessages_resume r x) hx) hp h
  case openConversationResumes f r =>
    exact resume_timersOk _ _ p q (fun x hx => openConversation_resume_timersOk f r x hx) hp h
  case sendReply r =>
    exact resume_timersOk _ _ p q
      (fun x hx => timersOk_of_view (timerView_sendMessage_resume r x) hx) hp h
  case sendReloaded f r =>
    exact resume_timersOk _ _ p q
      (fun x hx => timersOk_of_view (timerView_sendMessage_reloaded f r x) hx) hp h
  case unreadReply r =>
    exact resume_timersOk _ _ p q
      (fun x hx => timersOk_of_view (timerView_updateUnreadCount_resume r x) hx) hp h
  case startChatWithReply a b r =>
    exact resume_timersOk _ _ p q
      (fun x hx => timersOk_of_view (timerView_startChatWith_resume a b r x) hx) hp h
  case listenerReply r =>
    exact resume_timersOk _ _ p q
      (fun x hx => timersOk_of_view (timerView_listener_resume r x) hx) hp h

theorem run_timersOk (acts : List Action) (p q : Page) (hp : TimersOk p)
    (h : run acts p = some q) : TimersOk q := by
  induction acts generalizing p with
  | nil =>
    simp only [run, Option.some.injEq] at h
    subst h
    exact hp
  | cons a as ih =>
    simp only [run, Option.bind_eq_some] at h
    obtain ⟨m, hm, hq⟩ := h
    exact ih m (step_timersOk a p m hp hm) hq

theorem domContentLoaded_timersOk (p0 : Page) (h : Fresh p0) :
    TimersOk (domContentLoaded p0) := by
  obtain ⟨hc, ht, _, hn⟩ := h
  refine ⟨p0.nextHandle, ?_, ?_, ?_, Or.inl ⟨?_, ?_⟩⟩
  · rfl
  · exact hn
  · show p0.nextHandle < p0.nextHandle + 1
    omega
  · show p0.chatState.pollingInterval = none
    rw [hc]; rfl
  · show p0.timers ++ [_] = _
    rw [ht]; rfl

/-- Every reachable page satisfies the timer invariant. -/
theorem reachable_timersOk (p : Page) (h : Reachable p) : TimersOk p := by
  obtain ⟨p0, acts, hf, hr⟩ := h
  exact run_timersOk acts _ p (domContentLoaded_timersOk p0 hf) hr

/-! ## `sendMessage` -/

theorem dropWhile_reverse_dropWhile_eq_nil (w : Char → Bool) (l : List Char) :
    ((l.dropWhile w).reverse.dropWhile w) = [] ↔ ∀ c ∈ l, w c = true := by
  constructor
  · intro h
    rw [List.dropWhile_eq_nil_iff] at h
    have hd : l.dropWhile w = [] := by
      cases hl : l.dropWhile w with
      | nil => rfl
      | cons x xs =>
        have hx : w x = true := h x (by rw [hl]; simp)
        have hnx := List.head_dropWhile_not w l (by rw [hl]; simp)
        simp only [hl, List.head_cons] at hnx
        rw [hx] at hnx
        cases hnx
    exact List.dropWhile_eq_nil_iff.mp hd
  · intro h
    have hd : l.dropWhile w = [] := List.dropWhile_eq_nil_iff.mpr h
    rw [hd]
    rfl

/-- The trimmed string is empty exactly when the string is empty or holds only
white space. -/
theorem jsTrim_eq_empty_iff (s : String) :
    jsTrim s = "" ↔ ∀ c ∈ s.data, isJsWhiteSpace c = true := by
  rw [← dropWhile_reverse_dropWhile_eq_nil]
  unfold jsTrim
  constructor
  · intro h
    have h2 := congrArg String.data h
    simpa using h2
  · intro h
    rw [h]
    rfl

/-- C1: `sendMessage` does nothing at all (no request, no suspended call, no
change of `chatState`, input or send button) when the input is empty or
white space only, or when `currentRecipientId` is `null` (or any falsy value);
whenever it changes anything, the trimmed input is non-empty, a recipient is
selected, and the one request it issues is the POST carrying
`currentRecipientId` and the trimmed input. -/
theorem sendMessage_guard (p : Page) :
    ((∀ c ∈ p.messageInputValue.data, isJsWhiteSpace c = true) → sendMessage p = p) ∧
    (p.chatState.currentRecipientId = .null → sendMessage p = p) ∧
    (p.chatState.currentRecipientId.truthy = false → sendMessage p = p) ∧
    (sendMessage p ≠ p →
      jsTrim p.messageInputValue ≠ "" ∧
      (¬ ∀ c ∈ p.messageInputValue.data, isJsWhiteSpace c = true) ∧
      p.chatState.currentRecipientId ≠ .null ∧
      p.chatState.currentRecipientId.truthy = true ∧
      (sendMessage p).requests = p.requests ++
        [.postMessage p.chatState.currentRecipientId (jsTrim p.messageInputValue)]) ∧
    ((sendMessage p).requests ≠ p.requests → sendMessage p ≠ p) := by
  have hfalsy : p.chatState.currentRecipientId.truthy = false → sendMessage p = p := by
    intro h
    simp [sendMessage, h]
  refine ⟨?_, ?_, hfalsy, ?_, ?_⟩
  · intro h
    have ht := (jsTrim_eq_empty_iff _).mpr h
    simp [sendMessage, ht]
  · intro h
    exact hfalsy (by rw [h]; rfl)
  · intro hne
    have ht : jsTrim p.messageInputValue ≠ "" := by
      intro ht
      exact hne (by simp [sendMessage, ht])
    have hr : p.chatState.currentRecipientId.truthy = true := by
      cases hr : p.chatState.currentRecipientId.truthy
      · exact absurd (hfalsy hr) hne
      · rfl
    refine ⟨ht, ?_, ?_, hr, ?_⟩
    · intro hall
      exact ht ((jsTrim_eq_empty_iff _).mpr hall)
    · intro hnull
      rw [hnull] at hr
      cases hr
    · simp [sendMessage, ht, hr, fetch, suspend]
  · intro h heq
    rw [heq] at h
    exact h rfl

theorem sendMessage_guard_witness :
    sendMessage (composePage (.num 4) " \t\n") = composePage (.num 4) " \t\n" ∧
    sendMessage (composePage .null "hello") = composePage .null "hello" ∧
    sendMessage (composePage (.num 0) "hello") = composePage (.num 0) "hello" ∧
    (sendMessage (composePage (.num 4) " hello ")).requests = [.postMessage (.num 4) "hello"] :=
  ⟨(sendMessage_guard (composePage (.num 4) " \t\n")).1 (by decide),
   (sendMessage_guard (composePage .null "hello")).2.1 rfl,
   (sendMessage_guard (composePage (.num 0) "hello")).2.2.1 rfl,
   ((sendMessage_guard (composePage (.num 4) " hello ")).2.2.2.1 (by decide)).2.2.2.2⟩

theorem sendBtn_stopPolling (p : Page) :
    (stopPolling p).sendBtnDisabled = p.sendBtnDisabled := by
  unfold stopPolling
  split
  · split <;> rfl
  · rfl

theorem sendBtn_loadMessages (p : Page) :
    (loadMessages p).1.sendBtnDisabled = p.sendBtnDisabled := by
  unfold loadMessages
  split <;> rfl

theorem sendBtn_loadMessages_finish (f : Bool) (r : Reply (List Message)) (p : Page) :
    (loadMessages_finish f r p).sendBtnDisabled = p.sendBtnDisabled := by
  unfold loadMessages_finish
  split
  · unfold loadMessages_resume
    split <;> rfl
  · rfl

theorem sendBtn_sendMessage (p : Page) :
    (sendMessage p).sendBtnDisabled = p.sendBtnDisabled ∨
      (sendMessage p).sendBtnDisabled = true := by
  unfold sendMessage
  dsimp only
  split
  · exact Or.inl rfl
  · exact Or.inr rfl

theorem sendBtn_resume (t : Suspended) (k : Page → Page) (p q : Page)
    (hk : ∀ x, (k x).sendBtnDisabled = x.sendBtnDisabled) (h : resume t k p = some q) :
    q.sendBtnDisabled = p.sendBtnDisabled := by
  unfold resume at h
  split at h
  · cases h
    exact hk _
  · cases h

/-- Only the end of a `sendMessage` call enables the send button: every other
turn of the event loop leaves the button as it was or disables it. -/
theorem step_sendBtnDisabled (a : Action) (p q : Page) (h : step a p = some q) :
    q.sendBtnDisabled = p.sendBtnDisabled ∨ q.sendBtnDisabled = true ∨
      (∃ r : Reply SendResponse, a = .sendReply r ∧ r.succeeded = false) ∨
      (∃ f rl, a = .sendReloaded f rl) := by
  cases a <;> simp only [step, Option.some.injEq] at h
  case clickOpenChat => subst h; exact Or.inl rfl
  case clickCloseChat =>
    subst h
    left
    unfold closeChat backToConversations
    rw [sendBtn_stopPolling]
    exact sendBtn_stopPolling _
  case clickBack =>
    subst h
    left
    unfold backToConversations
    rw [sendBtn_stopPolling]
  case clickSend =>
    subst h
    rcases sendBtn_sendMessage p with e | e
    · exact Or.inl e
    · exact Or.inr (Or.inl e)
  case keypress k b =>
    subst h
    unfold onKeypress
    split
    · rcases sendBtn_sendMessage p with e | e
      · exact Or.inl e
      · exact Or.inr (Or.inl e)
    · exact Or.inl rfl
  case input v => subst h; exact Or.inl rfl
  case clickConversation c =>
    unfold clickConversation at h
    split at h
    · split at h
      · cases h
        left
        unfold openConversation
        dsimp only
        exact sendBtn_loadMessages _
      · cases h
    · cases h
  case callStartChatWith a b =>
    subst h
    left
    unfold startChatWith
    split <;> rfl
  case dispatchOpenConversation e => subst h; exact Or.inl rfl
  case timerFires n =>
    unfold timerFires at h
    split at h
    · split at h
      · cases h
        left
        have hv := sendBtn_loadMessages p
        split
        · exact hv
        · exact hv
      · cases h
        exact Or.inl rfl
    · cases h
  case loadConversationsReply r =>
    refine Or.inl (sendBtn_resume _ _ p q (fun x => ?_) h)
    unfold loadConversations_resume
    split
    · split <;> rfl
    · rfl
  case loadMessagesReply r =>
    refine Or.inl (sendBtn_resume _ _ p q (fun x => ?_) h)
    unfold loadMessages_resume
    split <;> rfl
  case openConversationResumes f r =>
    refine Or.inl (sendBtn_resume _ _ p q (fun x => ?_) h)
    unfold openConversation_resume setInterval
    dsimp only
    rw [sendBtn_stopPolling]
    exact sendBtn_loadMessages_finish f r x
  case sendReply r =>
    cases r with
    | ok data =>
      refine Or.inl (sendBtn_resume _ _ p q (fun x => ?_) h)
      unfold sendMessage_resume
      dsimp only
      rw [show ∀ t y, (suspend t y).sendBtnDisabled = y.sendBtnDisabled from fun _ _ => rfl,
        sendBtn_loadMessages]
      split <;> rfl
    | fetchThrows => exact Or.inr (Or.inr (Or.inl ⟨_, rfl, rfl⟩))
    | notOk => exact Or.inr (Or.inr (Or.inl ⟨_, rfl, rfl⟩))
    | jsonThrows => exact Or.inr (Or.inr (Or.inl ⟨_, rfl, rfl⟩))
  case sendReloaded f r => exact Or.inr (Or.inr (Or.inr ⟨f, r, rfl⟩))
  case unreadReply r =>
    refine Or.inl (sendBtn_resume _ _ p q (fun x => ?_) h)
    unfold updateUnreadCount_resume
    split
    · rfl
    · rfl
    · rfl
    · split <;> rfl
  case startChatWithReply a b r =>
    refine Or.inl (sendBtn_resume _ _ p q (fun x => ?_) h)
    unfold startChatWith_resume
    split
    · split <;> rfl
    · rfl
    · rfl
  case listenerReply r =>
    refine Or.inl (sendBtn_resume _ _ p q (fun x => ?_) h)
    unfold listener_resume
    split <;> rfl

/-- C8, as stated, fails: after Enter is pressed twice in an opened conversation
both calls of `sendMessage` pass the guard and issue their POST; when the first
POST is answered the `finally` block of the first call enables the send button
while the POST of the second call is still in flight. -/
theorem sendBtn_enabled_while_post_in_flight :
    ∃ q, run doubleSendTrace (domContentLoaded blankPage) = some q ∧
      q.requests.filter (fun r => r == .postMessage (.num 2) "hi") =
        [.postMessage (.num 2) "hi", .postMessage (.num 2) "hi"] ∧
      Suspended.sendMessage_post ∈ q.pending ∧
      q.alerts = ["Failed to send message. Please try again."] ∧
      q.sendBtnDisabled = false :=
  ⟨_, rfl, by decide, by decide, rfl, rfl⟩

/-- C8, amended: for a `sendMessage` call that passes its guard, the send button
is disabled and the POST is in flight when the call suspends, it is still
disabled when a successful call suspends again to reload the messages, and no
turn of the event loop other than the end of a `sendMessage` call (this one or
one overlapping it) enables it.  From whatever page `q` the call resumes on:
when the POST did not succeed the call ends right there with the button
enabled, the input focused, exactly one alert added, and input text and
`chatState` as they were; when it succeeded no alert is shown and the button is
not touched until the call ends, on whatever page `q2` that is, with the button
enabled, the input focused and no alert. -/
theorem sendMessage_outcome (p : Page)
    (hinput : jsTrim p.messageInputValue ≠ "")
    (hrecipient : p.chatState.currentRecipientId.truthy = true) :
    ((sendMessage p).sendBtnDisabled = true ∧
      (sendMessage p).requests = p.requests ++
        [.postMessage p.chatState.currentRecipientId (jsTrim p.messageInputValue)] ∧
      (sendMessage p).pending = p.pending ++ [.sendMessage_post] ∧
      (sendMessage p).alerts = p.alerts) ∧
    (∀ data, (sendMessage_resume (.ok data) (sendMessage p)).sendBtnDisabled = true) ∧
    (∀ (a : Action) (q q2 : Page), step a q = some q2 → q.sendBtnDisabled = true →
      q2.sendBtnDisabled = true ∨
      (∃ r : Reply SendResponse, a = .sendReply r ∧ r.succeeded = false) ∨
      (∃ f rl, a = .sendReloaded f rl)) ∧
    (∀ (r : Reply SendResponse) (q : Page), r.succeeded = false →
      (sendMessage_resume r q).sendBtnDisabled = false ∧
      (sendMessage_resume r q).focusCount = q.focusCount + 1 ∧
      (sendMessage_resume r q).alerts =
        q.alerts ++ ["Failed to send message. Please try again."] ∧
      (sendMessage_resume r q).messageInputValue = q.messageInputValue ∧
      (sendMessage_resume r q).chatState = q.chatState ∧
      (sendMessage_resume r q).pending = q.pending) ∧
    (∀ (r : Reply SendResponse) (q : Page), r.succeeded = true →
      (sendMessage_resume r q).sendBtnDisabled = q.sendBtnDisabled ∧
      (sendMessage_resume r q).focusCount = q.focusCount ∧
      (sendMessage_resume r q).alerts = q.alerts ∧
      ∃ f, (sendMessage_resume r q).pending = q.pending ++ [.sendMessage_reload f]) ∧
    (∀ (f : Bool) (rl : Reply (List Message)) (q2 : Page),
      (sendMessage_reloaded f rl q2).sendBtnDisabled = false ∧
      (sendMessage_reloaded f rl q2).focusCount = q2.focusCount + 1 ∧
      (sendMessage_reloaded f rl q2).alerts = q2.alerts) := by
  have hsucc : ∀ (data : SendResponse) (q : Page),
      (sendMessage_resume (.ok data) q).sendBtnDisabled = q.sendBtnDisabled ∧
      (sendMessage_resume (.ok data) q).focusCount = q.focusCount ∧
      (sendMessage_resume (.ok data) q).alerts = q.alerts ∧
      ∃ f, (sendMessage_resume (.ok data) q).pending = q.pending ++ [.sendMessage_reload f] := by
    intro data q
    cases h1 : q.chatState.currentConversationId.truthy <;>
      cases h2 : data.conversation_id.truthy <;>
      simp [sendMessage_resume, loadMessages, suspend, fetch, h1, h2]
  have hstart : (sendMessage p).sendBtnDisabled = true ∧
      (sendMessage p).requests = p.requests ++
        [.postMessage p.chatState.currentRecipientId (jsTrim p.messageInputValue)] ∧
      (sendMessage p).pending = p.pending ++ [.sendMessage_post] ∧
      (sendMessage p).alerts = p.alerts := by
    simp [sendMessage, hinput, hrecipient, fetch, suspend]
  refine ⟨hstart, ?_, ?_, ?_, ?_, ?_⟩
  · intro data
    rw [(hsucc data _).1]
    exact hstart.1
  · intro a q q2 hstep hq
    rcases step_sendBtnDisabled a q q2 hstep with e | e | e | e
    · exact Or.inl (e.trans hq)
    · exact Or.inl e
    · exact Or.inr (Or.inl e)
    · exact Or.inr (Or.inr e)
  · intro r q hr
    cases r with
    | ok d => cases hr
    | fetchThrows => exact ⟨rfl, rfl, rfl, rfl, rfl, rfl⟩
    | notOk => exact ⟨rfl, rfl, rfl, rfl, rfl, rfl⟩
    | jsonThrows => exact ⟨rfl, rfl, rfl, rfl, rfl, rfl⟩
  · intro r q hr
    cases r with
    | ok d => exact hsucc d q
    | fetchThrows => cases hr
    | notOk => cases hr
    | jsonThrows => cases hr
  · intro f rl q2
    unfold sendMessage_reloaded loadMessages_finish
    split
    · unfold loadMessages_resume
      split <;> exact ⟨rfl, rfl, rfl⟩
    · exact ⟨rfl, rfl, rfl⟩

theorem sendMessage_outcome_witness :
    (sendMessage (composePage (.num 4) " hello ")).sendBtnDisabled = true ∧
    (sendMessage_resume .notOk (sendMessage (composePage (.num 4) " hello "))).alerts =
      ["Failed to send message. Please try again."] ∧
    (sendMessage_resume .notOk (sendMessage (composePage (.num 4) " hello "))).sendBtnDisabled
      = false :=
  have h := sendMessage_outcome (composePage (.num 4) " hello ") (by decide) rfl
  ⟨h.1.1, (h.2.2.2.1 .notOk _ rfl).2.2.1, (h.2.2.2.1 .notOk _ rfl).1⟩

/-- C9: when the POST succeeded with body `conversation_id: c`, on whatever page
`q` the reply arrives: a `currentConversationId` that is not set (`null`, or any
falsy value) becomes `c`, one that is set stays as it is whatever `c` is;
`currentRecipientId`, `currentRecipientEmail` and both timer fields are
unchanged and the input is the empty string. -/
theorem sendMessage_adopts_conversation_id (q : Page) (c : JsVal) :
    (q.chatState.currentConversationId = .null →
      (sendMessage_resume (.ok ⟨c⟩) q).chatState.currentConversationId = c) ∧
    (q.chatState.currentConversationId.truthy = false →
      (sendMessage_resume (.ok ⟨c⟩) q).chatState.currentConversationId = c) ∧
    (q.chatState.currentConversationId.truthy = true →
      (sendMessage_resume (.ok ⟨c⟩) q).chatState.currentConversationId =
        q.chatState.currentConversationId) ∧
    (sendMessage_resume (.ok ⟨c⟩) q).chatState.currentRecipientId =
      q.chatState.currentRecipientId ∧
    (sendMessage_resume (.ok ⟨c⟩) q).chatState.currentRecipientEmail =
      q.chatState.currentRecipientEmail ∧
    (sendMessage_resume (.ok ⟨c⟩) q).chatState.pollingInterval =
      q.chatState.pollingInterval ∧
    (sendMessage_resume (.ok ⟨c⟩) q).chatState.unreadInterval =
      q.chatState.unreadInterval ∧
    (sendMessage_resume (.ok ⟨c⟩) q).messageInputValue = "" := by
  have hfalsy : q.chatState.currentConversationId.truthy = false →
      (sendMessage_resume (.ok ⟨c⟩) q).chatState.currentConversationId = c := by
    intro h
    cases h2 : c.truthy <;> simp [sendMessage_resume, loadMessages, suspend, fetch, h, h2]
  refine ⟨fun h => hfalsy (by rw [h]; rfl), hfalsy, ?_, ?_, ?_, ?_, ?_, ?_⟩
  · intro h
    simp [sendMessage_resume, loadMessages, suspend, fetch, h]
  all_goals
    cases h1 : q.chatState.currentConversationId.truthy <;>
      cases h2 : c.truthy <;>
      simp [sendMessage_resume, loadMessages, suspend, fetch, h1, h2]

theorem sendMessage_adopts_conversation_id_witness :
    (sendMessage_resume (.ok ⟨.num 9⟩) (composePage (.num 4) "hi")).chatState.currentConversationId
      = .num 9 :=
  (sendMessage_adopts_conversation_id (composePage (.num 4) "hi") (.num 9)).1 rfl

/-! ## `updateUnreadCount` -/

theorem numberToString_natCast (k : Nat) : numberToString (k : Int) = Nat.repr k := rfl

/-- C3: on a successful unread-count reply with `unread_count = n`, the badge
gets display `none` (its text untouched) when `n ≤ 0`, display `flex` and the
decimal rendering of `n` when `1 ≤ n ≤ 99`, display `flex` and `99+` when
`n > 99`; when the fetch throws, the response is not ok or its body does not
parse, badge text and display stay as they were.  Counts 0, 5 and 150 give
hidden, `5` and `99+`. -/
theorem updateUnreadCount_badge (p : Page) (n : Int) :
    (n ≤ 0 →
      (updateUnreadCount_resume (.ok n) p).badgeDisplay = "none" ∧
      (updateUnreadCount_resume (.ok n) p).badgeText = p.badgeText) ∧
    (1 ≤ n → n ≤ 99 →
      (updateUnreadCount_resume (.ok n) p).badgeDisplay = "flex" ∧
      (updateUnreadCount_resume (.ok n) p).badgeText = Nat.repr n.toNat) ∧
    (99 < n →
      (updateUnreadCount_resume (.ok n) p).badgeDisplay = "flex" ∧
      (updateUnreadCount_resume (.ok n) p).badgeText = "99+") ∧
    (∀ r : Reply Int, r.succeeded = false →
      (updateUnreadCount_resume r p).badgeDisplay = p.badgeDisplay ∧
      (updateUnreadCount_resume r p).badgeText = p.badgeText) ∧
    ((updateUnreadCount p).badgeDisplay = p.badgeDisplay ∧
      (updateUnreadCount p).badgeText = p.badgeText) ∧
    ((updateUnreadCount_resume (.ok 0) p).badgeDisplay = "none" ∧
      (updateUnreadCount_resume (.ok 5) p).badgeDisplay = "flex" ∧
      (updateUnreadCount_resume (.ok 5) p).badgeText = "5" ∧
      (updateUnreadCount_resume (.ok 150) p).badgeDisplay = "flex" ∧
      (updateUnreadCount_resume (.ok 150) p).badgeText = "99+") := by
  refine ⟨?_, ?_, ?_, ?_, ⟨rfl, rfl⟩, ⟨rfl, rfl, rfl, rfl, rfl⟩⟩
  · intro h
    have h0 : ¬ n > 0 := by omega
    simp [updateUnreadCount_resume, h0]
  · intro h1 h99
    have h0 : n > 0 := by omega
    have h2 : ¬ n > 99 := by omega
    obtain ⟨k, rfl⟩ := Int.eq_ofNat_of_zero_le (by omega : 0 ≤ n)
    simp only [updateUnreadCount_resume, h0, h2, if_true, if_false, Int.toNat_ofNat,
      numberToString_natCast, and_self]
  · intro h
    have h0 : n > 0 := by omega
    simp [updateUnreadCount_resume, h0, h]
  · intro r hr
    cases r with
    | ok d => cases hr
    | fetchThrows => exact ⟨rfl, rfl⟩
    | notOk => exact ⟨rfl, rfl⟩
    | jsonThrows => exact ⟨rfl, rfl⟩

theorem updateUnreadCount_badge_witness :
    (updateUnreadCount_resume (.ok 42) blankPage).badgeDisplay = "flex" ∧
    (updateUnreadCount_resume (.ok 42) blankPage).badgeText = "42" ∧
    (updateUnreadCount_resume (.ok (-3)) blankPage).badgeDisplay = "none" ∧
    (updateUnreadCount_resume (.ok 100) blankPage).badgeText = "99+" ∧
    (updateUnreadCount_resume .notOk blankPage).badgeDisplay = "" :=
  ⟨((updateUnreadCount_badge blankPage 42).2.1 (by decide) (by decide)).1,
   ((updateUnreadCount_badge blankPage 42).2.1 (by decide) (by decide)).2,
   ((updateUnreadCount_badge blankPage (-3)).1 (by decide)).1,
   ((updateUnreadCount_badge blankPage 100).2.2.1 (by decide)).2,
   ((updateUnreadCount_badge blankPage 0).2.2.2.1 .notOk rfl).1⟩

/-! ## Timers -/

/-- C5: on every reachable page, after `closeChat` returns `pollingInterval` is
`null` and no message-poll timer is live; `unreadInterval` is unchanged and its
10-second timer is still the one live unread poll, which is then the only
active timer; `currentConversationId`, `currentRecipientId` and
`currentRecipientEmail` are `null`. -/
theorem closeChat_timers (p : Page) (hp : Reachable p) :
    (closeChat p).chatState.pollingInterval = none ∧
    messagePollTimers (closeChat p) = [] ∧
    (closeChat p).chatState.unreadInterval = p.chatState.unreadInterval ∧
    unreadPollTimers (closeChat p) = unreadPollTimers p ∧
    (∃ u, (closeChat p).chatState.unreadInterval = some u ∧
      (closeChat p).timers = [⟨u, .updateUnreadCount, 10000⟩]) ∧
    (closeChat p).chatState.currentConversationId = .null ∧
    (closeChat p).chatState.currentRecipientId = .null ∧
    (closeChat p).chatState.currentRecipientEmail = .null ∧
    (closeChat p).chatModalDisplay = "none" := by
  obtain ⟨u, hu, hu0, hul, hcase⟩ := reachable_timersOk p hp
  simp only [Page.timerView] at hu hul hcase
  rcases hcase with ⟨hn, ht⟩ | ⟨h, hs, h0, _, hne, ht⟩
  · simp [closeChat, backToConversations, stopPolling, messagePollTimers, unreadPollTimers,
      hn, ht, hu]
  · have h0' : h ≠ 0 := by omega
    have hne' : u ≠ h := fun e => hne e.symm
    simp [closeChat, backToConversations, stopPolling, clearInterval, messagePollTimers,
      unreadPollTimers, hs, ht, hu, h0', hne']

theorem fresh_blankPage : Fresh blankPage := ⟨rfl, rfl, rfl, by decide⟩

theorem reachable_listPage : Reachable listPage :=
  ⟨blankPage, listTrace, fresh_blankPage, rfl⟩

theorem reachable_openedPage : Reachable openedPage :=
  ⟨blankPage, openedTrace, fresh_blankPage, rfl⟩

theorem closeChat_timers_witness :
    messagePollTimers openedPage = [⟨2, .loadMessages, 3000⟩] ∧
    messagePollTimers (closeChat openedPage) = [] ∧
    unreadPollTimers (closeChat openedPage) = unreadPollTimers openedPage :=
  ⟨rfl, (closeChat_timers openedPage reachable_openedPage).2.1,
    (closeChat_timers openedPage reachable_openedPage).2.2.2.1⟩

theorem mem_erase_pair (l : List Suspended) (x y : Suspended) :
    y ∈ (l ++ [x] ++ [y]).erase x ∧ x ∈ (l ++ [x] ++ [y]).erase y := by
  by_cases hxy : x = y
  · subst hxy
    have hc : 0 < List.count x ((l ++ [x] ++ [x]).erase x) := by
      rw [List.count_erase_self]
      simp
    exact ⟨List.count_pos_iff.mp hc, List.count_pos_iff.mp hc⟩
  · constructor
    · exact (List.mem_erase_of_ne (fun e => hxy e.symm)).mpr (by simp)
    · exact (List.mem_erase_of_ne hxy).mpr (by simp)

theorem openConversation_pending (c r e : JsVal) (p : Page) :
    (openConversation c r e p).pending = p.pending ++ [.openConversation c.truthy] := by
  cases h : c.truthy <;> simp [openConversation, loadMessages, suspend, fetch, h]

theorem openConversation_conversationsList (c r e : JsVal) (p : Page) :
    (openConversation c r e p).conversationsList = p.conversationsList := by
  cases h : c.truthy <;> simp [openConversation, loadMessages, suspend, fetch, h]

theorem stopPolling_pending (p : Page) : (stopPolling p).pending = p.pending := by
  unfold stopPolling
  split
  · split <;> rfl
  · rfl

theorem stopPolling_conversationsList (p : Page) :
    (stopPolling p).conversationsList = p.conversationsList := by
  unfold stopPolling
  split
  · split <;> rfl
  · rfl

theorem loadMessages_finish_pending (f : Bool) (r : Reply (List Message)) (p : Page) :
    ∀ t ∈ p.pending, t ∈ (loadMessages_finish f r p).pending := by
  intro t ht
  unfold loadMessages_finish
  split
  · unfold loadMessages_resume
    split
    · exact List.mem_append_left _ ht
    · exact ht
  · exact ht

theorem loadMessages_finish_conversationsList (f : Bool) (r : Reply (List Message))
    (p : Page) : (loadMessages_finish f r p).conversationsList = p.conversationsList := by
  unfold loadMessages_finish
  split
  · unfold loadMessages_resume
    split <;> rfl
  · rfl

theorem openConversation_resume_pending (f : Bool) (r : Reply (List Message)) (p : Page) :
    ∀ t ∈ p.pending, t ∈ (openConversation_resume f r p).pending := by
  intro t ht
  have h1 := loadMessages_finish_pending f r p t ht
  rw [← stopPolling_pending] at h1
  exact h1

theorem openConversation_resume_conversationsList (f : Bool) (r : Reply (List Message))
    (p : Page) : (openConversation_resume f r p).conversationsList = p.conversationsList := by
  have h1 := loadMessages_finish_conversationsList f r p
  rw [← stopPolling_conversationsList] at h1
  exact h1

/-- A click on a rendered conversation item calls `openConversation`: the call
suspends and leaves timers and list untouched. -/
theorem step_clickConversation (p : Page) (cs : List Conversation) (a : Conversation)
    (hl : p.conversationsList = .items cs) (ha : a ∈ cs) :
    ∃ q, step (.clickConversation a) p = some q ∧
      q.nextHandle = p.nextHandle ∧
      unreadPollTimers q = unreadPollTimers p ∧
      q.conversationsList = .items cs ∧
      q.pending = p.pending ++ [.openConversation a.id.truthy] := by
  have hv := timerView_openConversation a.id a.other_user_id a.other_user_email p
  simp only [Page.timerView, TimerView.mk.injEq] at hv
  refine ⟨openConversation a.id a.other_user_id a.other_user_email p, ?_, hv.2.1, ?_, ?_, ?_⟩
  · simp [step, clickConversation, hl, ha]
  · simp only [unreadPollTimers, hv.1]
  · rw [openConversation_conversationsList, hl]
  · exact openConversation_pending _ _ _ p

/-- A suspended `openConversation` call resumes: afterwards one new message
poll, stored in `pollingInterval`, is live next to the unread poll. -/
theorem step_openConversationResumes (p : Page) (f : Bool) (r : Reply (List Message))
    (hp : TimersOk p) (hm : Suspended.openConversation f ∈ p.pending) :
    ∃ q, step (.openConversationResumes f r) p = some q ∧
      q.nextHandle = p.nextHandle + 1 ∧
      q.chatState.pollingInterval = some p.nextHandle ∧
      messagePollTimers q = [⟨p.nextHandle, .loadMessages, 3000⟩] ∧
      unreadPollTimers q = unreadPollTimers p ∧
      q.conversationsList = p.conversationsList ∧
      (∀ t ∈ p.pending.erase (.openConversation f), t ∈ q.pending) := by
  have hp2 : TimersOk { p with pending := p.pending.erase (.openConversation f) } := hp
  obtain ⟨u, hu, _, _, hv⟩ := openConversation_resume_timerView f r _ hp2
  simp only [Page.timerView, TimerView.mk.injEq] at hv
  obtain ⟨ht, hn, hpoll, _⟩ := hv
  have hunread : unreadPollTimers p = [⟨u, .updateUnreadCount, 10000⟩] := by
    obtain ⟨u2, hu2, _, _, hcase⟩ := hp
    simp only [Page.timerView] at hu2 hcase
    have e : u2 = u := by
      have hu3 : p.chatState.unreadInterval = some u := hu
      rw [hu2] at hu3
      exact Option.some.inj hu3
    subst e
    rcases hcase with ⟨_, htm⟩ | ⟨h, _, _, _, _, htm⟩ <;> simp [unreadPollTimers, htm]
  refine ⟨_, ?_, hn, hpoll, ?_, ?_, ?_, ?_⟩
  · simp only [step, resume, hm, if_true]
  · simp [messagePollTimers, ht]
  · rw [hunread]
    simp [unreadPollTimers, ht]
  · exact openConversation_resume_conversationsList f r _
  · exact fun t ht => openConversation_resume_pending f r _ t ht

/-- C4: from every reachable page that shows a conversation list, two
`openConversation` calls made in succession (clicks on the rendered items `a`
and then `b`), run to completion in any interleaving of their awaits on
`loadMessages` and with any outcome of the two loads, leave exactly one live
message-poll timer: the one stored in `chatState.pollingInterval`, the second
of the two timers created; the first one created and any one live before have
been cleared. -/
theorem openConversation_twice_one_timer (p : Page) (hp : Reachable p)
    (cs : List Conversation) (hl : p.conversationsList = .items cs)
    (a b : Conversation) (ha : a ∈ cs) (hb : b ∈ cs)
    (ra rb : Reply (List Message)) (acts : List Action)
    (hacts : acts ∈ openTwice a b ra rb) :
    ∃ q, run acts p = some q ∧
      q.chatState.pollingInterval = some (p.nextHandle + 1) ∧
      messagePollTimers q = [⟨p.nextHandle + 1, .loadMessages, 3000⟩] ∧
      unreadPollTimers q = unreadPollTimers p ∧
      (∀ t ∈ messagePollTimers p, t ∉ q.timers) ∧
      (∀ t ∈ q.timers, t.handle ≠ p.nextHandle) := by
  have ok0 := reachable_timersOk p hp
  have hold : ∀ q : Page, messagePollTimers q = [⟨p.nextHandle + 1, .loadMessages, 3000⟩] →
      unreadPollTimers q = unreadPollTimers p →
      (∀ t ∈ messagePollTimers p, t ∉ q.timers) ∧ (∀ t ∈ q.timers, t.handle ≠ p.nextHandle) := by
    intro q hq hqu
    obtain ⟨u, hu, hu0, hul, hcase⟩ := ok0
    simp only [Page.timerView] at hu hul hcase
    have hmem : ∀ t, t ∈ q.timers → t = ⟨p.nextHandle + 1, .loadMessages, 3000⟩ ∨
        t ∈ unreadPollTimers p := by
      intro t ht
      cases hc : t.callback with
      | loadMessages =>
        left
        have : t ∈ messagePollTimers q := by
          simp [messagePollTimers, ht, hc]
        rw [hq] at this
        simpa using this
      | updateUnreadCount =>
        right
        rw [← hqu]
        simp [unreadPollTimers, ht, hc]
    have hunread : unreadPollTimers p = [⟨u, .updateUnreadCount, 10000⟩] := by
      rcases hcase with ⟨_, ht⟩ | ⟨h, _, _, _, _, ht⟩ <;> simp [unreadPollTimers, ht]
    constructor
    · intro t ht hin
      have htl : t.handle < p.nextHandle ∧ t.callback = .loadMessages := by
        rcases hcase with ⟨_, htm⟩ | ⟨h, _, _, hlt, _, htm⟩
        · simp [messagePollTimers, htm] at ht
        · simp [messagePollTimers, htm] at ht
          subst ht
          exact ⟨hlt, rfl⟩
      rcases hmem t hin with e | e
      · rw [e] at htl
        simp at htl
      · rw [hunread] at e
        simp at e
        rw [e] at htl
        simp at htl
    · intro t hin
      rcases hmem t hin with e | e
      · rw [e]
        simp
      · rw [hunread] at e
        simp at e
        rw [e]
        simp only
        omega
  simp only [openTwice, List.mem_cons, List.mem_singleton, List.not_mem_nil, or_false]
    at hacts
  obtain ⟨p1, s1, n1, u1, l1, pe1⟩ := step_clickConversation p cs a hl ha
  have ok1 : TimersOk p1 := step_timersOk _ p p1 ok0 s1
  rcases hacts with rfl | rfl | rfl
  · obtain ⟨p2, s2, n2, _, _, u2, l2, _⟩ :=
      step_openConversationResumes p1 a.id.truthy ra ok1 (by rw [pe1]; simp)
    have ok2 := step_timersOk _ _ _ ok1 s2
    obtain ⟨p3, s3, n3, u3, _, pe3⟩ := step_clickConversation p2 cs b (by rw [l2, l1]) hb
    have ok3 := step_timersOk _ _ _ ok2 s3
    obtain ⟨p4, s4, _, poll4, m4, u4, _, _⟩ :=
      step_openConversationResumes p3 b.id.truthy rb ok3 (by rw [pe3]; simp)
    have e : p3.nextHandle = p.nextHandle + 1 := by rw [n3, n2, n1]
    rw [e] at poll4 m4
    have hu : unreadPollTimers p4 = unreadPollTimers p := by rw [u4, u3, u2, u1]
    exact ⟨p4, by simp [run, s1, s2, s3, s4], poll4, m4, hu, hold p4 m4 hu⟩
  · obtain ⟨p2, s2, n2, u2, _, pe2⟩ := step_clickConversation p1 cs b l1 hb
    have ok2 := step_timersOk _ _ _ ok1 s2
    rw [pe1] at pe2
    obtain ⟨p3, s3, n3, _, _, u3, _, pe3⟩ :=
      step_openConversationResumes p2 a.id.truthy ra ok2 (by rw [pe2]; simp)
    have ok3 := step_timersOk _ _ _ ok2 s3
    obtain ⟨p4, s4, _, poll4, m4, u4, _, _⟩ :=
      step_openConversationResumes p3 b.id.truthy rb ok3
        (pe3 _ (by rw [pe2]; exact (mem_erase_pair _ _ _).1))
    have e : p3.nextHandle = p.nextHandle + 1 := by rw [n3, n2, n1]
    rw [e] at poll4 m4
    have hu : unreadPollTimers p4 = unreadPollTimers p := by rw [u4, u3, u2, u1]
    exact ⟨p4, by simp [run, s1, s2, s3, s4], poll4, m4, hu, hold p4 m4 hu⟩
  · obtain ⟨p2, s2, n2, u2, _, pe2⟩ := step_clickConversation p1 cs b l1 hb
    have ok2 := step_timersOk _ _ _ ok1 s2
    rw [pe1] at pe2
    obtain ⟨p3, s3, n3, _, _, u3, _, pe3⟩ :=
      step_openConversationResumes p2 b.id.truthy rb ok2 (by rw [pe2]; simp)
    have ok3 := step_timersOk _ _ _ ok2 s3
    obtain ⟨p4, s4, _, poll4, m4, u4, _, _⟩ :=
      step_openConversationResumes p3 a.id.truthy ra ok3
        (pe3 _ (by rw [pe2]; exact (mem_erase_pair _ _ _).2))
    have e : p3.nextHandle = p.nextHandle + 1 := by rw [n3, n2, n1]
    rw [e] at poll4 m4
    have hu : unreadPollTimers p4 = unreadPollTimers p := by rw [u4, u3, u2, u1]
    exact ⟨p4, by simp [run, s1, s2, s3, s4], poll4, m4, hu, hold p4 m4 hu⟩

theorem openConversation_twice_one_timer_witness :
    ∃ q, run [.clickConversation sampleConversation, .clickConversation otherConversation,
          .openConversationResumes true (.ok []), .openConversationResumes true .notOk]
        listPage = some q ∧
      q.chatState.pollingInterval = some 3 ∧
      messagePollTimers q = [⟨3, .loadMessages, 3000⟩] :=
  have h := openConversation_twice_one_timer listPage reachable_listPage
    [sampleConversation, otherConversation] rfl sampleConversation otherConversation
    (by decide) (by decide) (.ok []) .notOk
    [.clickConversation sampleConversation, .clickConversation otherConversation,
      .openConversationResumes true (.ok []), .openConversationResumes true .notOk]
    (by decide)
  h.imp fun _ hq => ⟨hq.1, hq.2.1, hq.2.2.1⟩

/-- C10: runs of the widget after which a message-poll timer is live although no
conversation is open.  The user opens the chat, opens a conversation and
closes the chat (or goes back to the list) while `openConversation` is still
awaiting `loadMessages`; when the messages arrive, `openConversation` resumes
and starts the poll: `pollingInterval` is set and its timer is live while
`currentConversationId` is `null`.  The same holds after `startChatWith` has
seeded a new conversation while an opened one was being polled. -/
theorem poll_timer_outlives_conversation :
    (∃ q, run closeWhileLoadingTrace (domContentLoaded blankPage) = some q ∧
      q.chatModalDisplay = "none" ∧
      q.chatState.currentConversationId = .null ∧
      q.chatState.pollingInterval = some 2 ∧
      messagePollTimers q = [⟨2, .loadMessages, 3000⟩]) ∧
    (∃ q, run backWhileLoadingTrace (domContentLoaded blankPage) = some q ∧
      q.chatState.currentConversationId = .null ∧
      q.chatState.pollingInterval = some 2 ∧
      messagePollTimers q = [⟨2, .loadMessages, 3000⟩]) ∧
    (∃ q, run startChatWhilePollingTrace (domContentLoaded blankPage) = some q ∧
      q.chatState.currentConversationId = .null ∧
      q.chatState.pollingInterval = some 2 ∧
      messagePollTimers q = [⟨2, .loadMessages, 3000⟩]) :=
  ⟨⟨_, rfl, rfl, rfl, rfl, rfl⟩, ⟨_, rfl, rfl, rfl, rfl⟩, ⟨_, rfl, rfl, rfl, rfl⟩⟩

/-! ## `startChatWith` -/

/-- C6: with a truthy `recipientId` and `recipientEmail`, `startChatWith` opens
the modal, issues the GET for the conversation list and suspends without
touching `chatState`.  When the list `cs` arrives, on whatever page `q`: if some
conversation has `other_user_id` equal to `recipientId`, exactly one
`openConversation` event is dispatched, its detail carrying the id of the
first such conversation with `recipientId` and `recipientEmail`, and no new
conversation is seeded (no placeholder written, input not focused); if none
has, no event is dispatched and `chatState` gets `currentConversationId = null`,
`currentRecipientId = recipientId`, `currentRecipientEmail = recipientEmail`.
With a falsy `recipientId` or `recipientEmail` nothing is fetched, `chatState`
and modal stay as they were, no call is suspended and no event dispatched. -/
theorem startChatWith_existing_or_new (p q : Page) (recipientId recipientEmail : JsVal)
    (cs : List Conversation) :
    (recipientId.truthy = true → recipientEmail.truthy = true →
      ((startChatWith recipientId recipientEmail p).requests =
          p.requests ++ [.getConversations] ∧
        (startChatWith recipientId recipientEmail p).pending =
          p.pending ++ [.startChatWith recipientId recipientEmail] ∧
        (startChatWith recipientId recipientEmail p).chatModalDisplay = "flex" ∧
        (startChatWith recipientId recipientEmail p).chatState = p.chatState ∧
        (startChatWith recipientId recipientEmail p).events = p.events) ∧
      ((∃ c ∈ cs, c.other_user_id = recipientId) →
        ∃ before c after, cs = before ++ c :: after ∧
          (∀ x ∈ before, x.other_user_id ≠ recipientId) ∧
          c.other_user_id = recipientId ∧
          (startChatWith_resume recipientId recipientEmail (.ok cs) q).events =
            q.events ++ [⟨c.id, recipientId, recipientEmail⟩] ∧
          (startChatWith_resume recipientId recipientEmail (.ok cs) q).chatState =
            { q.chatState with
              currentConversationId := c.id,
              currentRecipientId := recipientId,
              currentRecipientEmail := recipientEmail } ∧
          (startChatWith_resume recipientId recipientEmail (.ok cs) q).messagesContainer =
            q.messagesContainer ∧
          (startChatWith_resume recipientId recipientEmail (.ok cs) q).focusCount =
            q.focusCount) ∧
      ((∀ c ∈ cs, c.other_user_id ≠ recipientId) →
        (startChatWith_resume recipientId recipientEmail (.ok cs) q).events = q.events ∧
        (startChatWith_resume recipientId recipientEmail (.ok cs) q).chatState =
          { q.chatState with
            currentConversationId := .null,
            currentRecipientId := recipientId,
            currentRecipientEmail := recipientEmail } ∧
        (startChatWith_resume recipientId recipientEmail (.ok cs) q).messagesContainer =
          .startConversation recipientEmail ∧
        (startChatWith_resume recipientId recipientEmail (.ok cs) q).requests = q.requests)) ∧
    ((recipientId.truthy = false ∨ recipientEmail.truthy = false) →
      (startChatWith recipientId recipientEmail p).requests = p.requests ∧
      (startChatWith recipientId recipientEmail p).chatState = p.chatState ∧
      (startChatWith recipientId recipientEmail p).chatModalDisplay = p.chatModalDisplay ∧
      (startChatWith recipientId recipientEmail p).pending = p.pending ∧
      (startChatWith recipientId recipientEmail p).events = p.events ∧
      (startChatWith recipientId recipientEmail p).alerts = p.alerts) := by
  constructor
  · intro hid hemail
    refine ⟨?_, ?_, ?_⟩
    · simp [startChatWith, hid, hemail, suspend, fetch]
    · rintro ⟨c0, hc0, hm0⟩
      cases hf : cs.find? (fun c => c.other_user_id.strictEq recipientId) with
      | none =>
        rw [List.find?_eq_none] at hf
        exact absurd (by simp [JsVal.strictEq, hm0]) (hf c0 hc0)
      | some c =>
        obtain ⟨hpc, before, after, hsplit, hbefore⟩ := List.find?_eq_some.mp hf
        refine ⟨before, c, after, hsplit, ?_, ?_, ?_⟩
        · intro x hx
          have := hbefore x hx
          simpa [JsVal.strictEq] using this
        · simpa [JsVal.strictEq] using hpc
        · simp only [startChatWith_resume, hf]
          exact ⟨rfl, rfl, rfl, rfl⟩
    · intro hnone
      have hf : cs.find? (fun c => c.other_user_id.strictEq recipientId) = none := by
        rw [List.find?_eq_none]
        intro x hx
        simpa [JsVal.strictEq] using hnone x hx
      simp [startChatWith_resume, hf]
  · intro h
    have hg : (!recipientId.truthy || !recipientEmail.truthy) = true := by
      rcases h with h | h <;> simp [h]
    simp [startChatWith, hg, consoleError]

theorem startChatWith_existing_or_new_witness :
    (∃ before c after, [sampleConversation, otherConversation] = before ++ c :: after ∧
      (∀ x ∈ before, x.other_user_id ≠ .num 3) ∧ c.other_user_id = .num 3 ∧
      (startChatWith_resume (.num 3) (.str "buyer@example.com")
        (.ok [sampleConversation, otherConversation]) blankPage).events =
        [⟨c.id, .num 3, .str "buyer@example.com"⟩]) ∧
    (startChatWith_resume (.num 5) (.str "new@example.com")
        (.ok [sampleConversation, otherConversation]) blankPage).chatState.currentRecipientId =
      .num 5 ∧
    (startChatWith (.num 0) (.str "new@example.com") blankPage).requests = [] :=
  have h1 := ((startChatWith_existing_or_new blankPage blankPage (.num 3)
    (.str "buyer@example.com") [sampleConversation, otherConversation]).1 rfl rfl).2.1
    ⟨otherConversation, by decide, rfl⟩
  have h2 := (startChatWith_existing_or_new blankPage blankPage (.num 5)
    (.str "new@example.com") [sampleConversation, otherConversation]).1 rfl rfl
  have h3 := (startChatWith_existing_or_new blankPage blankPage (.num 0)
    (.str "new@example.com") []).2 (Or.inl rfl)
  ⟨h1.imp fun _ h => h.imp fun _ h => h.imp fun _ h => ⟨h.1, h.2.1, h.2.2.1, h.2.2.2.1⟩,
    congrArg ChatState.currentRecipientId (h2.2.2 (by decide)).2.1, h3.1⟩

/-! ## `formatTimestamp` -/

theorem mathFloorDiv_eq (a b : Int) (hb : 0 ≤ b) : mathFloorDiv a b = a / b :=
  Int.fdiv_eq_ediv a hb

theorem numberToString_of_pos (n : Int) (h : 0 ≤ n) : numberToString n = Nat.repr n.toNat := by
  obtain ⟨k, rfl⟩ := Int.eq_ofNat_of_zero_le h
  rfl

theorem formatTimestamp_at (now d : Int) (loc : Option Int → String) :
    formatTimestamp now loc (some (now - d)) =
      if d / 60000 < 1 then "Just now"
      else if d / 60000 < 60 then numberToString (d / 60000) ++ "m ago"
      else if d / 3600000 < 24 then numberToString (d / 3600000) ++ "h ago"
      else if d / 86400000 < 7 then numberToString (d / 86400000) ++ "d ago"
      else loc (some (now - d)) := by
  have e : now - (now - d) = d := by omega
  simp only [formatTimestamp, e, mathFloorDiv_eq _ _ (by decide : (0 : Int) ≤ 60000),
    mathFloorDiv_eq _ _ (by decide : (0 : Int) ≤ 3600000),
    mathFloorDiv_eq _ _ (by decide : (0 : Int) ≤ 86400000)]

/-- C2: for a valid timestamp `t` and current time `now`, with `d = now - t`
in milliseconds and `m`, `h`, `dd` the floors of `d / 60000`, `d / 3600000`
and `d / 86400000`: `formatTimestamp` returns `Just now` when `m < 1`; the
decimal `m` followed by `m ago` when `1 ≤ m < 60`; the decimal `h` followed by
`h ago`, with `1 ≤ h < 24`, when `60 ≤ m` and `h < 24`; the decimal `dd`
followed by `d ago`, with `1 ≤ dd < 7`, when `24 ≤ h` and `dd < 7`; the locale
date string of `t` when `7 ≤ dd`.  The copy inside the event listener returns
the same.  At 30 seconds, 5 minutes, 3 hours, 2 days and 10 days before `now`
the results are `Just now`, `5m ago`, `3h ago`, `2d ago` and the locale date. -/
theorem formatTimestamp_buckets (now t : Int) (loc : Option Int → String) :
    (60000 * mathFloorDiv (now - t) 60000 ≤ now - t ∧
      now - t < 60000 * (mathFloorDiv (now - t) 60000 + 1) ∧
      3600000 * mathFloorDiv (now - t) 3600000 ≤ now - t ∧
      now - t < 3600000 * (mathFloorDiv (now - t) 3600000 + 1) ∧
      86400000 * mathFloorDiv (now - t) 86400000 ≤ now - t ∧
      now - t < 86400000 * (mathFloorDiv (now - t) 86400000 + 1)) ∧
    (mathFloorDiv (now - t) 60000 < 1 → formatTimestamp now loc (some t) = "Just now") ∧
    (1 ≤ mathFloorDiv (now - t) 60000 → mathFloorDiv (now - t) 60000 < 60 →
      formatTimestamp now loc (some t) =
        Nat.repr (mathFloorDiv (now - t) 60000).toNat ++ "m ago") ∧
    (60 ≤ mathFloorDiv (now - t) 60000 → mathFloorDiv (now - t) 3600000 < 24 →
      formatTimestamp now loc (some t) =
        Nat.repr (mathFloorDiv (now - t) 3600000).toNat ++ "h ago" ∧
      1 ≤ mathFloorDiv (now - t) 3600000) ∧
    (24 ≤ mathFloorDiv (now - t) 3600000 → mathFloorDiv (now - t) 86400000 < 7 →
      formatTimestamp now loc (some t) =
        Nat.repr (mathFloorDiv (now - t) 86400000).toNat ++ "d ago" ∧
      1 ≤ mathFloorDiv (now - t) 86400000) ∧
    (7 ≤ mathFloorDiv (now - t) 86400000 → formatTimestamp now loc (some t) = loc (some t)) ∧
    listener_formatTimestamp now loc (some t) = formatTimestamp now loc (some t) ∧
    (formatTimestamp now loc (some (now - 30000)) = "Just now" ∧
      formatTimestamp now loc (some (now - 300000)) = "5m ago" ∧
      formatTimestamp now loc (some (now - 10800000)) = "3h ago" ∧
      formatTimestamp now loc (some (now - 172800000)) = "2d ago" ∧
      formatTimestamp now loc (some (now - 864000000)) = loc (some (now - 864000000))) := by
  have e1 := mathFloorDiv_eq (now - t) 60000 (by decide)
  have e2 := mathFloorDiv_eq (now - t) 3600000 (by decide)
  have e3 := mathFloorDiv_eq (now - t) 86400000 (by decide)
  have hf := formatTimestamp_at now (now - t) loc
  have et : now - (now - t) = t := by omega
  rw [et] at hf
  rw [e1, e2, e3]
  refine ⟨by omega, ?_, ?_, ?_, ?_, ?_, rfl, ?_⟩
  · intro h
    rw [hf, if_pos h]
  · intro h1 h2
    rw [hf, if_neg (by omega), if_pos h2, numberToString_of_pos _ (by omega)]
  · intro h1 h2
    refine ⟨?_, by omega⟩
    rw [hf, if_neg (by omega), if_neg (by omega), if_pos h2,
      numberToString_of_pos _ (by omega)]
  · intro h1 h2
    refine ⟨?_, by omega⟩
    rw [hf, if_neg (by omega), if_neg (by omega), if_neg (by omega), if_pos h2,
      numberToString_of_pos _ (by omega)]
  · intro h1
    rw [hf, if_neg (by omega), if_neg (by omega), if_neg (by omega), if_neg (by omega)]
  · refine ⟨?_, ?_, ?_, ?_, ?_⟩ <;> rw [formatTimestamp_at] <;> rfl

theorem formatTimestamp_buckets_witness :
    formatTimestamp 1700000000000 (fun _ => "1/1/2024") (some 1699999100000) = "15m ago" ∧
    formatTimestamp 1700000000000 (fun _ => "1/1/2024") (some 1700000500000) = "Just now" ∧
    formatTimestamp 1700000000000 (fun _ => "1/1/2024") (some 1699990000000) = "2h ago" ∧
    formatTimestamp 1700000000000 (fun _ => "1/1/2024") (some 1699500000000) = "5d ago" ∧
    formatTimestamp 1700000000000 (fun _ => "1/1/2024") (some 1600000000000) = "1/1/2024" :=
  ⟨(formatTimestamp_buckets 1700000000000 1699999100000 _).2.2.1 (by decide) (by decide),
   (formatTimestamp_buckets 1700000000000 1700000500000 _).2.1 (by decide),
   ((formatTimestamp_buckets 1700000000000 1699990000000 _).2.2.2.1 (by decide) (by decide)).1,
   ((formatTimestamp_buckets 1700000000000 1699500000000 _).2.2.2.2.1
      (by decide) (by decide)).1,
   (formatTimestamp_buckets 1700000000000 1600000000000 _).2.2.2.2.2.1 (by decide)⟩

/-! ## `escapeHtml` -/

theorem decodeEntities_cons_of_ne (c : Char) (r : List Char) (h : c ≠ '&') :
    decodeEntities (c :: r) = c :: decodeEntities r := by
  rw [decodeEntities] <;> (intros; contradiction)

theorem decodeEntities_escapeChar (c : Char) (r : List Char) :
    decodeEntities (escapeChar c ++ r) = c :: decodeEntities r := by
  unfold escapeChar
  split
  · subst_vars; rw [List.cons_append, List.cons_append, List.cons_append, List.cons_append, List.cons_append, List.nil_append, decodeEntities]
  · split
    · subst_vars; simp only [List.cons_append, List.nil_append]; rw [decodeEntities]
    · split
      · subst_vars; simp only [List.cons_append, List.nil_append]; rw [decodeEntities]
      · split
        · subst_vars; simp only [List.cons_append, List.nil_append]; rw [decodeEntities]
        · simp only [List.cons_append, List.nil_append]
          exact decodeEntities_cons_of_ne c r (by assumption)

theorem decode_escapeChars (cs : List Char) : decodeEntities (escapeChars cs) = cs := by
  induction cs with
  | nil => rfl
  | cons c cs ih => rw [escapeChars, decodeEntities_escapeChar, ih]

theorem escapeChar_cases (c : Char) :
    escapeChar c ∈ entities ∨ (escapeChar c = [c] ∧ c ≠ '&' ∧ c ≠ '<' ∧ c ≠ '>') := by
  unfold escapeChar entities
  split
  · left; simp
  · split
    · left; simp
    · split
      · left; simp
      · split
        · left; simp
        · right; exact ⟨rfl, by assumption, by assumption, by assumption⟩

theorem no_angle (cs : List Char) : '<' ∉ escapeChars cs ∧ '>' ∉ escapeChars cs := by
  induction cs with
  | nil => simp [escapeChars]
  | cons c cs ih =>
    rw [escapeChars]
    rcases escapeChar_cases c with h | ⟨h, _, h2, h3⟩
    · simp only [entities, List.mem_cons, List.mem_singleton, List.not_mem_nil, or_false] at h
      rcases h with h | h | h | h <;> rw [h] <;> simp [ih.1, ih.2]
    · rw [h]
      simp [ih.1, ih.2]
      exact ⟨fun e => h2 e.symm, fun e => h3 e.symm⟩

theorem amp_begins_entity (cs pre suf : List Char) (h : escapeChars cs = pre ++ '&' :: suf) :
    ∃ e ∈ entities, e <+: '&' :: suf := by
  induction cs generalizing pre with
  | nil => simp [escapeChars] at h
  | cons c cs ih =>
    rw [escapeChars] at h
    rcases List.append_eq_append_iff.mp h with ⟨a, hpre, hrest⟩ | ⟨b, hc, hsuf⟩
    · exact ih a hrest
    · cases b with
      | nil =>
        simp only [List.nil_append] at hsuf
        exact ih [] (by simpa using hsuf.symm)
      | cons x b =>
        simp only [List.cons_append, List.cons.injEq] at hsuf
        obtain ⟨hx, hsuf⟩ := hsuf
        subst hx
        rcases escapeChar_cases c with he | ⟨he, hne, _, _⟩
        · cases pre with
          | nil =>
            simp only [List.nil_append] at hc
            refine ⟨escapeChar c, he, ?_⟩
            rw [hc, hsuf]
            exact ⟨escapeChars cs, by simp⟩
          | cons y pre =>
            exfalso
            have hin : '&' ∈ (escapeChar c).tail := by
              rw [hc]
              simp
            simp only [entities, List.mem_cons, List.mem_singleton, List.not_mem_nil,
              or_false] at he
            rcases he with h | h | h | h <;> rw [h] at hin <;> revert hin <;> decide
        · rw [he] at hc
          cases pre with
          | nil =>
            simp only [List.nil_append, List.cons.injEq] at hc
            exact absurd hc.1 hne
          | cons y pre =>
            simp at hc

theorem escapeHtml_data (text : String) : (escapeHtml text).data = escapeChars text.data := by
  unfold escapeHtml createDiv DivElement.setTextContent DivElement.innerHTML
  dsimp only
  split
  · rename_i h
    subst h
    rfl
  · simp

/-- C7: for every string `text`, `escapeHtml(text)` holds no `<` and no `>`,
every `&` in it begins one of the character references the escaping writes
(`&amp;`, `&nbsp;`, `&lt;`, `&gt;`), and decoding those references gives `text`
back; `escapeHtml("<b>hi</b>")` is `&lt;b&gt;hi&lt;/b&gt;`; the copy inside the
event listener returns the same string. -/
theorem escapeHtml_literal_text (text : String) :
    '<' ∉ (escapeHtml text).data ∧
    '>' ∉ (escapeHtml text).data ∧
    (∀ pre suf : List Char, (escapeHtml text).data = pre ++ '&' :: suf →
      ∃ e ∈ entities, e <+: '&' :: suf) ∧
    decodeHtml (escapeHtml text) = text ∧
    escapeHtml "<b>hi</b>" = "&lt;b&gt;hi&lt;/b&gt;" ∧
    listener_escapeHtml text = escapeHtml text := by
  refine ⟨?_, ?_, ?_, ?_, by decide, rfl⟩
  · rw [escapeHtml_data]
    exact (no_angle _).1
  · rw [escapeHtml_data]
    exact (no_angle _).2
  · intro pre suf h
    rw [escapeHtml_data] at h
    exact amp_begins_entity _ pre suf h
  · unfold decodeHtml
    rw [escapeHtml_data, decode_escapeChars]

theorem escapeHtml_literal_text_witness :
    escapeHtml "a<&>b" = "a&lt;&amp;&gt;b" ∧
    (∃ e ∈ entities, e <+: "&amp;&gt;b".data) ∧
    decodeHtml (escapeHtml "<script>alert(1)</script> &lt;") = "<script>alert(1)</script> &lt;" :=
  ⟨by decide,
   (escapeHtml_literal_text "a<&>b").2.2.1 "a&lt;".data "amp;&gt;b".data (by decide),
   (escapeHtml_literal_text "<script>alert(1)</script> &lt;").2.2.2.1⟩

end SparzaFI
